import Mathlib

/-!
Verification development for the Dynamics 365 MCP server's query-parsing,
interactive query-assistant and metadata-cache subsystems.

The definitions below are a shallow embedding of the TypeScript sources:
  * `MetadataExplorerService` (src/services/metadataExplorerService.ts)
  * `QueryAssistantService`   (src/services/queryAssistantService.ts)
  * `NLQueryService`          (src/services/nlQueryService.ts)

JavaScript strings are Lean `String`s, JS numbers used as timestamps are
`Int` (milliseconds), records/maps with insertion order are association
lists, optional / possibly-`undefined` values are `Option`, and thrown
exceptions are `Except String`.  External collaborators (the Dynamics CRM
connector) are passed in as explicit function parameters.
-/

set_option linter.unusedVariables false

/-- Association-list lookup: first binding wins (models JS object / `Map.get`). -/
def assocFind {α : Type} (l : List (String × α)) (k : String) : Option α :=
  match l with
  | [] => none
  | (k0, v) :: rest => if k0 = k then some v else assocFind rest k

/-- Association-list update: replaces the first binding of `k` in place, or
appends a new binding (models JS `obj[k] = v` / `Map.set`, which preserve
insertion order). -/
def assocSet {α : Type} (l : List (String × α)) (k : String) (v : α) : List (String × α) :=
  match l with
  | [] => [(k, v)]
  | (k0, v0) :: rest => if k0 = k then (k0, v) :: rest else (k0, v0) :: assocSet rest k v

theorem assocFind_assocSet_self {α : Type} (l : List (String × α)) (k : String) (v : α) :
    assocFind (assocSet l k v) k = some v := by
  induction l with
  | nil => simp [assocSet, assocFind]
  | cons hd tl ih =>
    obtain ⟨k0, v0⟩ := hd
    by_cases h : k0 = k
    · simp [assocSet, assocFind, h]
    · simp [assocSet, assocFind, h, ih]

/-- JS `||` on a possibly-`undefined` string: an absent or empty string falls
through to the default (empty strings are falsy in JS). -/
def jsOrStr (a : Option String) (b : String) : String :=
  match a with
  | some s => if s = "" then b else s
  | none => b

/-- Characters matched by JS `\s` (the ASCII portion, which is all that the
sources ever feed it). -/
def isJsSpace (c : Char) : Bool :=
  c = ' ' ∨ c = '\t' ∨ c = '\n' ∨ c = '\r' ∨ c = '\x0b' ∨ c = '\x0c'

/-- Characters matched by JS `\w` : `[A-Za-z0-9_]`. -/
def isJsWord (c : Char) : Bool :=
  ('a' ≤ c ∧ c ≤ 'z') ∨ ('A' ≤ c ∧ c ≤ 'Z') ∨ ('0' ≤ c ∧ c ≤ '9') ∨ c = '_'

/-- JS `String.prototype.trim` on a character list: strip leading and trailing
whitespace. -/
def jsTrimList (l : List Char) : List Char :=
  ((l.dropWhile isJsSpace).reverse.dropWhile isJsSpace).reverse

/-- JS `String.prototype.trim`. -/
def jsTrim (s : String) : String :=
  String.mk (jsTrimList s.data)

/-- JS `String.prototype.toLowerCase`, restricted to the ASCII range (the only
case mapping the sources rely on after diacritics have been handled). -/
def jsToLower (s : String) : String :=
  String.mk (s.data.map Char.toLower)

/-- Split a character list at every character satisfying `p` (separators are
dropped, empty pieces kept — the behavior of splitting on single
characters). -/
def splitChars (p : Char → Bool) : List Char → List (List Char)
  | [] => [[]]
  | c :: cs =>
    match splitChars p cs with
    | [] => [[]]
    | cur :: rest => if p c then [] :: cur :: rest else (c :: cur) :: rest

/-- Split a string at every character satisfying `p`. -/
def strSplit (p : Char → Bool) (s : String) : List String :=
  (splitChars p s.data).map String.mk

/-! ## A small backtracking regex engine

`QueryAssistantService.parseFilterInput` and `parseOrderByInput` and the
`campos` field-list extraction of `NLQueryService` are driven by JS regexes.
The engine below implements exactly the constructs those regexes use
(character atoms, greedy `+` / `*` over a single atom, two capturing groups,
an alternation of literal words) with JS semantics: unanchored leftmost
search, greedy matching with backtracking, first alternative wins. -/

/-- A single-character regex atom. -/
inductive RAtom : Type
  | lit (c : Char)          -- a literal character (compared case-insensitively, /i)
  | cls (cs : List Char)    -- a character class such as `[eé]`
  | word                    -- `\w`
  | space                   -- `\s`
  | dot                     -- `.` (anything except a line terminator)
  | notDot                  -- `[^.]` (anything except a literal dot)
deriving DecidableEq

/-- Whether atom `a` matches character `c` (with the `/i` flag, as all the
source regexes carry it). -/
def atomMatch (a : RAtom) (c : Char) : Bool :=
  match a with
  | .lit c0 => c.toLower = c0.toLower
  | .cls cs => cs.contains c.toLower
  | .word => isJsWord c
  | .space => isJsSpace c
  | .dot => ¬ (c = '\n' ∨ c = '\r')
  | .notDot => c ≠ '.'

/-- A regex element: a single atom, a greedy quantified atom, a capturing
group `(atom+)`, or a capturing alternation of literal words. -/
inductive RItem : Type
  | ch (a : RAtom)
  | plus (a : RAtom)
  | star (a : RAtom)
  | capPlus (a : RAtom)
  | capAlt (alts : List String)
deriving DecidableEq

/-- Length of the longest prefix of `s` every character of which matches `a`. -/
def runLen (a : RAtom) : List Char → Nat
  | [] => 0
  | c :: cs => if atomMatch a c then runLen a cs + 1 else 0

/-- Case-insensitive test that `alt` is a prefix of `s` (JS literal alternative
under `/i`). -/
def litPrefix : List Char → List Char → Bool
  | [], _ => true
  | _ :: _, [] => false
  | a :: as, c :: cs => a.toLower = c.toLower ∧ litPrefix as cs

/-- Match a sequence of regex items against a prefix of `s`, returning the
captured groups in order.  Greedy quantifiers try the longest consumption
first and backtrack (JS semantics); trailing input is allowed (no `$`). -/
def matchItems : List RItem → List Char → Option (List String)
  | [], _ => some []
  | .ch a :: items, [] => none
  | .ch a :: items, c :: cs => if atomMatch a c then matchItems items cs else none
  | .plus a :: items, s =>
    let m := runLen a s
    (List.range m).findSome? (fun j => matchItems items (s.drop (m - j)))
  | .star a :: items, s =>
    let m := runLen a s
    (List.range (m + 1)).findSome? (fun j => matchItems items (s.drop (m - j)))
  | .capPlus a :: items, s =>
    let m := runLen a s
    (List.range m).findSome? (fun j =>
      (matchItems items (s.drop (m - j))).map
        (fun caps => String.mk (s.take (m - j)) :: caps))
  | .capAlt alts :: items, s =>
    alts.findSome? (fun alt =>
      if litPrefix alt.data s then
        (matchItems items (s.drop alt.length)).map (fun caps => alt :: caps)
      else none)

/-- Unanchored leftmost search (JS `String.prototype.match` without `/g`):
try each start position from the left, return the captures of the first
position at which the pattern matches. -/
def regexSearch (p : List RItem) : List Char → Option (List String)
  | [] => matchItems p []
  | c :: cs =>
    match matchItems p (c :: cs) with
    | some caps => some caps
    | none => regexSearch p cs

/-- Helper: the items of a literal word inside a pattern. -/
def lits (w : String) : List RItem := w.data.map (fun c => RItem.ch (RAtom.lit c))

/-! ## MetadataExplorerService (src/services/metadataExplorerService.ts)

The cached schema records, the cache itself, entity-name normalization and
the cache-refresh logic of `getEntityDetails` / `loadEntityDetails`.  The
Dynamics connector (`dynamicsService.getEntityMetadata`) is an explicit
function parameter; `X?.UserLocalizedLabel?.Label` chains on the raw API
documents are modelled as `Option String` fields. -/

namespace MetadataExplorer

/-- One `{value, label}` entry of a raw option set (`opt.Value`,
`opt.Label?.UserLocalizedLabel?.Label`). -/
structure RawOption where
  Value : Int
  Label : Option String
deriving DecidableEq

/-- A raw `OptionSet` document (`Name`, `Options`). -/
structure RawOptionSet where
  Name : String
  Options : Option (List RawOption)
deriving DecidableEq

/-- A raw attribute document as consumed by `loadEntityDetails`. -/
structure RawAttribute where
  LogicalName : String
  SchemaName : Option String
  DisplayName : Option String
  AttributeType : String
  Description : Option String
  RequiredLevel : Option String
  IsPrimaryId : Bool
  IsPrimaryName : Bool
  MaxLength : Option Int
  MinValue : Option Int
  MaxValue : Option Int
  Precision : Option Int
  OptionSet : Option RawOptionSet
deriving DecidableEq

/-- A raw relationship document; the fields read by `mapRelationship`. -/
structure RawRelationship where
  SchemaName : String
  ReferencedEntity : String
  ReferencingEntity : String
  Entity2LogicalName : String
  ReferencingEntityNavigationPropertyName : String
  ReferencedEntityNavigationPropertyName : String
  Entity1NavigationPropertyName : String
  ReferencingAttribute : String
deriving DecidableEq

/-- A raw entity-metadata document returned by the connector's
`getEntityMetadata`. -/
structure RawEntityMetadata where
  LogicalName : String
  SchemaName : Option String
  DisplayName : Option String
  DisplayCollectionName : Option String
  EntitySetName : Option String
  Description : Option String
  PrimaryIdAttribute : String
  PrimaryNameAttribute : Option String
  IsCustomEntity : Option Bool
  Attributes : Option (List RawAttribute)
  ManyToOneRelationships : Option (List RawRelationship)
  OneToManyRelationships : Option (List RawRelationship)
  ManyToManyRelationships : Option (List RawRelationship)
deriving DecidableEq

/-- Cached `MetadataAttribute` (interface of metadataExplorerService.ts). -/
structure MetadataAttribute where
  name : String
  displayName : String
  type : String
  description : Option String
  required : Bool
  isPrimaryId : Bool
  isPrimaryName : Bool
  maxLength : Option Int
  precision : Option Int
  minValue : Option Int
  maxValue : Option Int
  optionSet : Option (String × List (Int × String))
deriving DecidableEq

/-- Cached `MetadataRelationship`. -/
structure MetadataRelationship where
  name : String
  type : String
  referencedEntity : String
  navigationProperty : String
  lookupField : Option String
deriving DecidableEq

/-- Cached `MetadataEntity`. -/
structure MetadataEntity where
  name : String
  displayName : String
  displayCollectionName : String
  description : Option String
  primaryIdField : String
  primaryNameField : Option String
  isCustomEntity : Bool
  attributes : List MetadataAttribute
  relationships : List MetadataRelationship
deriving DecidableEq

/-- The `MetadataCache` record: entity map plus last-refresh timestamp. -/
structure MetadataCache where
  entities : List (String × MetadataEntity)
  lastUpdated : Int
deriving DecidableEq

/-- `cacheExpirationMs = 3600000` (1 hour). -/
def cacheExpirationMs : Int := 3600000

/-- `isCacheExpired`: the cache is older than the TTL. -/
def isCacheExpired (now : Int) (cache : MetadataCache) : Bool :=
  now - cache.lastUpdated > cacheExpirationMs

/-- The options record accepted by `getEntityDetails`; each field is
`Option` because an absent (`undefined`) option behaves differently from an
explicit `false` in `loadEntityDetails` (`options.includeAttributes ?? true`). -/
structure EntityDetailsOptions where
  includeAttributes : Option Bool := none
  includeOptionSets : Option Bool := none
  includeAttributeTypes : Option Bool := none
  selectEntityProperties : Option (List String) := none
  selectAttributeProperties : Option (List String) := none
  refresh : Option Bool := none
deriving DecidableEq

/-- The options forwarded to the connector's `getEntityMetadata`. -/
structure GetEntityMetadataOptions where
  includeAttributes : Option Bool := none
  includeOptionSets : Option Bool := none
  includeAttributeTypes : Option Bool := none
  selectEntityProperties : Option (List String) := none
  selectAttributeProperties : Option (List String) := none
deriving DecidableEq

/-- The Dynamics connector's `getEntityMetadata`, as an external collaborator:
`none` models a thrown error / missing metadata. -/
def MetadataConnector : Type :=
  String → GetEntityMetadataOptions → Option RawEntityMetadata

/-- `normalizeEntityName`: the synonym table (`commonMappings`). -/
def commonMappings : List (String × String) :=
  [("account", "account"), ("accounts", "account"),
   ("contact", "contact"), ("contacts", "contact"),
   ("opportunity", "opportunity"), ("opportunities", "opportunity"),
   ("lead", "lead"), ("leads", "lead"),
   ("case", "incident"), ("cases", "incident"),
   ("incident", "incident"), ("incidents", "incident"),
   ("activity", "activity"), ("activities", "activity")]

/-- `normalizeEntityName`.  Note: the source computes `singularName`
(strip one trailing `s`) but never uses it; unmapped names are returned
merely lowercased. -/
def normalizeEntityName (entityName : String) : String :=
  let singularName :=
    if entityName.endsWith "s" then entityName.dropRight 1 else entityName
  match assocFind commonMappings (jsToLower entityName) with
  | some mapped => mapped
  | none => jsToLower entityName

/-- Attribute mapping inside `loadEntityDetails` (and `getAttributeDetails`):
build a cached `MetadataAttribute` from a raw attribute document. -/
def mapRawAttribute (opts : EntityDetailsOptions) (attr : RawAttribute) : MetadataAttribute :=
  let base : MetadataAttribute :=
    { name := attr.LogicalName
      displayName := jsOrStr attr.DisplayName (jsOrStr attr.SchemaName attr.LogicalName)
      type := attr.AttributeType
      description := attr.Description
      required := attr.RequiredLevel = some "ApplicationRequired" ∨
        attr.RequiredLevel = some "SystemRequired"
      isPrimaryId := attr.IsPrimaryId
      isPrimaryName := attr.IsPrimaryName
      maxLength := attr.MaxLength
      precision := attr.Precision
      minValue := attr.MinValue
      maxValue := attr.MaxValue
      optionSet := none }
  if opts.includeOptionSets.getD false ∧ attr.OptionSet.isSome ∧
      (attr.AttributeType = "Picklist" ∨ attr.AttributeType = "Status" ∨
       attr.AttributeType = "State" ∨ attr.AttributeType = "Boolean") then
    match attr.OptionSet with
    | some os =>
      { base with optionSet := some (os.Name,
          (os.Options.getD []).map (fun opt =>
            (opt.Value, jsOrStr opt.Label ("Opção " ++ toString opt.Value)))) }
    | none => base
  else base

/-- `mapRelationship` inside `loadEntityDetails`. -/
def mapRelationship (rel : RawRelationship) (type : String) : MetadataRelationship :=
  { name := rel.SchemaName
    type := type
    referencedEntity :=
      if type = "ManyToOne" then rel.ReferencedEntity
      else if type = "OneToMany" then rel.ReferencingEntity
      else rel.Entity2LogicalName
    navigationProperty :=
      if type = "ManyToOne" then rel.ReferencingEntityNavigationPropertyName
      else if type = "OneToMany" then rel.ReferencedEntityNavigationPropertyName
      else rel.Entity1NavigationPropertyName
    lookupField := if type = "ManyToOne" then some rel.ReferencingAttribute else none }

/-- The options `loadEntityDetails` forwards to the connector
(`includeAttributes: options.includeAttributes ?? true`, the rest verbatim). -/
def loadMetadataOptions (opts : EntityDetailsOptions) : GetEntityMetadataOptions :=
  { includeAttributes := some (opts.includeAttributes.getD true)
    includeOptionSets := opts.includeOptionSets
    includeAttributeTypes := opts.includeAttributeTypes
    selectEntityProperties := opts.selectEntityProperties
    selectAttributeProperties := opts.selectAttributeProperties }

/-- `loadEntityDetails`: fetch the raw metadata from the connector, rebuild
the cache entry for `entityName` and bump `lastUpdated`. -/
def loadEntityDetails (conn : MetadataConnector) (cache : MetadataCache) (now : Int)
    (entityName : String) (opts : EntityDetailsOptions) : Except String MetadataCache :=
  match conn entityName (loadMetadataOptions opts) with
  | none =>
    .error ("Falha ao carregar detalhes da entidade " ++ entityName ++
      ": Metadados para '" ++ entityName ++ "' não retornados pelo dynamicsService.")
  | some md =>
    let entity0 : MetadataEntity :=
      { name := md.LogicalName
        displayName := jsOrStr md.DisplayName (jsOrStr md.SchemaName md.LogicalName)
        displayCollectionName :=
          jsOrStr md.DisplayCollectionName (jsOrStr md.EntitySetName md.LogicalName)
        description := md.Description
        primaryIdField := md.PrimaryIdAttribute
        primaryNameField := md.PrimaryNameAttribute
        isCustomEntity := (md.IsCustomEntity).getD false
        attributes := []
        relationships := [] }
    let entity1 :=
      if opts.includeAttributes.getD false ∧ md.Attributes.isSome then
        { entity0 with attributes := (md.Attributes.getD []).map (mapRawAttribute opts) }
      else entity0
    let rels :=
      ((md.ManyToOneRelationships.getD []).map (fun r => mapRelationship r "ManyToOne")) ++
      ((md.OneToManyRelationships.getD []).map (fun r => mapRelationship r "OneToMany")) ++
      ((md.ManyToManyRelationships.getD []).map (fun r => mapRelationship r "ManyToMany"))
    let entity2 := { entity1 with relationships := rels }
    .ok { entities := assocSet cache.entities entityName entity2, lastUpdated := now }

/-- The cache-staleness test of `getEntityDetails`: refresh requested, cache
expired, entry absent, attributes requested but not cached, or option sets
requested but none cached. -/
def needsEntityLoad (cache : MetadataCache) (now : Int) (normalized : String)
    (opts : EntityDetailsOptions) : Bool :=
  opts.refresh.getD false || isCacheExpired now cache ||
  (assocFind cache.entities normalized).isNone ||
  (opts.includeAttributes.getD false &&
    (match assocFind cache.entities normalized with
     | some e => e.attributes.isEmpty
     | none => true)) ||
  (opts.includeOptionSets.getD false &&
    (match assocFind cache.entities normalized with
     | some e => ! e.attributes.any (fun a => a.optionSet.isSome)
     | none => true))

/-- `getEntityDetails`: normalize the name, reload if needed, return the
cached record (or fail with a NotFound-style error). -/
def getEntityDetails (conn : MetadataConnector) (cache : MetadataCache) (now : Int)
    (entityName : String) (opts : EntityDetailsOptions) :
    Except String (MetadataCache × MetadataEntity) :=
  let normalized := normalizeEntityName entityName
  let loaded : Except String MetadataCache :=
    if needsEntityLoad cache now normalized opts then
      loadEntityDetails conn cache now normalized opts
    else .ok cache
  match loaded with
  | .error e => .error ("Falha ao obter detalhes da entidade " ++ entityName ++ ": " ++ e)
  | .ok cache2 =>
    match assocFind cache2.entities normalized with
    | some entity => .ok (cache2, entity)
    | none =>
      .error ("Falha ao obter detalhes da entidade " ++ entityName ++
        ": Entidade '" ++ entityName ++ "' (normalizada: " ++ normalized ++
        ") não encontrada no cache após tentativa de carregamento.")

end MetadataExplorer

/-! ## QueryAssistantService (src/services/queryAssistantService.ts)

The per-session finite state machine, the Portuguese filter-phrase regex
bank, the OData filter builder and the session-expiry sweep.  The Dynamics
connector is an explicit parameter: `getEntityMetadata` is modelled by a
validation predicate (`true` = the schema fetch succeeds) and
`queryEntities` returns `Except` (`.error` = the connector threw). -/

namespace QueryAssistant

/-- A CRM record, opaque to the core (reshaping only passes them through). -/
def DynRecord : Type := List (String × String)

instance : DecidableEq DynRecord := by
  unfold DynRecord
  infer_instance

/-- The options passed to the connector's `queryEntities`. -/
structure QueryOptions where
  filter : Option String := none
  select : Option (List String) := none
  orderBy : Option String := none
  top : Option Nat := none
deriving DecidableEq

/-- The Dynamics connector as seen by the assistant. -/
structure Connector where
  getEntityMetadata : String → Bool
  queryEntities : String → QueryOptions → Except String (List DynRecord)

/-- A value of the session's filter map: either a plain string (the `id`
entry written by the `get` branch of `processFilterStep`) or an
`{operator, value}` pair. -/
inductive FilterVal : Type
  | raw (s : String)
  | cond (operator : String) (value : String)
deriving DecidableEq

/-- The `QuerySession` record. -/
structure QuerySession where
  id : String
  startTime : Int
  lastActivity : Int
  currentStep : String
  entity : Option String := none
  action : Option String := none
  filter : Option (List (String × FilterVal)) := none
  fields : Option (List String) := none
  orderBy : Option String := none
  limit : Option Nat := none
  completed : Bool
deriving DecidableEq

/-- The session store (`Map<string, QuerySession>`). -/
def SessionStore : Type := List (String × QuerySession)

/-- What a query execution returns. -/
inductive QueryResult : Type
  | records (l : List DynRecord)
  | single (r : DynRecord)
  | countResult (count : Nat) (entity : String) (filter : String)
deriving DecidableEq

/-- The `{message, completed, result?}` record returned by `processInput`. -/
structure StepResponse where
  message : String
  completed : Bool
  result : Option QueryResult := none
deriving DecidableEq

/-- `sessionExpirationMinutes = 30`. -/
def sessionExpirationMinutes : Int := 30

/-- The `entityMappings` synonym table (output form: pluralized collection
names of the CRM Web API). -/
def entityMappings : List (String × String) :=
  [("conta", "accounts"), ("contas", "accounts"),
   ("account", "accounts"), ("accounts", "accounts"),
   ("contato", "contacts"), ("contatos", "contacts"),
   ("contact", "contacts"), ("contacts", "contacts"),
   ("caso", "incidents"), ("casos", "incidents"),
   ("case", "incidents"), ("cases", "incidents"),
   ("incidents", "incidents"),
   ("oportunidade", "opportunities"), ("oportunidades", "opportunities"),
   ("opportunity", "opportunities"), ("opportunities", "opportunities"),
   ("lead", "leads"), ("leads", "leads"),
   ("atividade", "activities"), ("atividades", "activities"),
   ("activity", "activities"), ("activities", "activities")]

/-- `startSession`: create a fresh session in state `entity`.  The id the
source builds from `Date.now()` and `Math.random()` is parameterized here by
`now` and the random suffix. -/
def startSession (store : SessionStore) (now : Int) (rand : String) :
    SessionStore × String × String :=
  let sessionId := "query-" ++ toString now ++ "-" ++ rand
  let session : QuerySession :=
    { id := sessionId
      startTime := now
      lastActivity := now
      currentStep := "entity"
      completed := false }
  (assocSet store sessionId session, sessionId,
    "Bem-vindo ao assistente de consulta do Dynamics 365!\n\nVamos construir sua consulta passo a passo.\n\nPrimeiro, qual entidade você deseja consultar? (ex: contas, contatos, casos, oportunidades)")

/-- `processEntityStep`. -/
def processEntityStep (conn : Connector) (session : QuerySession) (input : String) :
    QuerySession × StepResponse :=
  let normalizedInput := jsToLower (jsTrim input)
  let entity := (assocFind entityMappings normalizedInput).getD normalizedInput
  if conn.getEntityMetadata entity then
    ({ session with entity := some entity, currentStep := "action" },
     { message := "Ótimo! Você selecionou a entidade \"" ++ entity ++
         "\".\n\nAgora, qual ação você deseja realizar?\n1. Listar registros\n2. Obter detalhes de um registro específico\n3. Contar registros\n\nResponda com o número ou nome da ação."
       completed := false })
  else
    (session,
     { message := "A entidade \"" ++ entity ++
         "\" não foi reconhecida ou não está disponível no Dynamics 365.\n\nPor favor, escolha uma entidade válida (ex: accounts, contacts, incidents, opportunities)."
       completed := false })

/-- `processActionStep`. -/
def processActionStep (session : QuerySession) (input : String) :
    QuerySession × StepResponse :=
  let normalizedInput := jsToLower (jsTrim input)
  if ["1", "listar", "list", "mostrar", "exibir", "buscar"].contains normalizedInput then
    ({ session with action := some "list", currentStep := "filter" },
     { message := "Você escolheu listar registros.\n\nDeseja aplicar algum filtro? (ex: \"nome contém Microsoft\" ou \"criado após 2023-01-01\")\n\nSe não quiser filtrar, responda \"não\" ou \"sem filtro\"."
       completed := false })
  else if ["2", "obter", "get", "detalhar", "detalhes", "ver"].contains normalizedInput then
    ({ session with action := some "get", currentStep := "filter" },
     { message := "Você escolheu obter detalhes de um registro específico.\n\nPor favor, informe o ID do registro que deseja consultar:"
       completed := false })
  else if ["3", "contar", "count", "total"].contains normalizedInput then
    ({ session with action := some "count", currentStep := "filter" },
     { message := "Você escolheu contar registros.\n\nDeseja aplicar algum filtro? (ex: \"nome contém Microsoft\" ou \"criado após 2023-01-01\")\n\nSe não quiser filtrar, responda \"não\" ou \"sem filtro\"."
       completed := false })
  else
    (session,
     { message := "Ação não reconhecida. Por favor, escolha uma das seguintes opções:\n1. Listar registros\n2. Obter detalhes de um registro específico\n3. Contar registros"
       completed := false })

/-- The ordered filter-phrase regex bank of `parseFilterInput` (first match
wins), each pattern paired with the operator tag it emits. -/
def filterPatterns : List (List RItem × String) :=
  [ ([RItem.capPlus RAtom.word, RItem.plus RAtom.space] ++ lits "cont" ++
       [RItem.ch (RAtom.cls ['e', 'é']), RItem.ch (RAtom.lit 'm'),
        RItem.plus RAtom.space, RItem.capPlus RAtom.dot], "contains"),
    ([RItem.capPlus RAtom.word, RItem.plus RAtom.space] ++ lits "come" ++
       [RItem.ch (RAtom.cls ['ç', 'c']), RItem.ch (RAtom.lit 'a'),
        RItem.plus RAtom.space] ++ lits "com" ++
       [RItem.plus RAtom.space, RItem.capPlus RAtom.dot], "startswith"),
    ([RItem.capPlus RAtom.word, RItem.plus RAtom.space] ++ lits "termina" ++
       [RItem.plus RAtom.space] ++ lits "com" ++
       [RItem.plus RAtom.space, RItem.capPlus RAtom.dot], "endswith"),
    ([RItem.capPlus RAtom.word, RItem.plus RAtom.space] ++ lits "igual" ++
       [RItem.plus RAtom.space, RItem.ch (RAtom.lit 'a'),
        RItem.plus RAtom.space, RItem.capPlus RAtom.dot], "eq"),
    ([RItem.capPlus RAtom.word, RItem.star RAtom.space, RItem.ch (RAtom.lit '='),
      RItem.star RAtom.space, RItem.capPlus RAtom.dot], "eq"),
    ([RItem.capPlus RAtom.word, RItem.plus RAtom.space] ++ lits "maior" ++
       [RItem.plus RAtom.space] ++ lits "que" ++
       [RItem.plus RAtom.space, RItem.capPlus RAtom.dot], "gt"),
    ([RItem.capPlus RAtom.word, RItem.star RAtom.space, RItem.ch (RAtom.lit '>'),
      RItem.star RAtom.space, RItem.capPlus RAtom.dot], "gt"),
    ([RItem.capPlus RAtom.word, RItem.plus RAtom.space] ++ lits "menor" ++
       [RItem.plus RAtom.space] ++ lits "que" ++
       [RItem.plus RAtom.space, RItem.capPlus RAtom.dot], "lt"),
    ([RItem.capPlus RAtom.word, RItem.star RAtom.space, RItem.ch (RAtom.lit '<'),
      RItem.star RAtom.space, RItem.capPlus RAtom.dot], "lt"),
    ([RItem.capPlus RAtom.word, RItem.plus RAtom.space] ++ lits "maior" ++
       [RItem.plus RAtom.space] ++ lits "ou" ++ [RItem.plus RAtom.space] ++
       lits "igual" ++ [RItem.plus RAtom.space, RItem.ch (RAtom.lit 'a'),
        RItem.plus RAtom.space, RItem.capPlus RAtom.dot], "ge"),
    ([RItem.capPlus RAtom.word, RItem.star RAtom.space, RItem.ch (RAtom.lit '>'),
      RItem.ch (RAtom.lit '='), RItem.star RAtom.space, RItem.capPlus RAtom.dot], "ge"),
    ([RItem.capPlus RAtom.word, RItem.plus RAtom.space] ++ lits "menor" ++
       [RItem.plus RAtom.space] ++ lits "ou" ++ [RItem.plus RAtom.space] ++
       lits "igual" ++ [RItem.plus RAtom.space, RItem.ch (RAtom.lit 'a'),
        RItem.plus RAtom.space, RItem.capPlus RAtom.dot], "le"),
    ([RItem.capPlus RAtom.word, RItem.star RAtom.space, RItem.ch (RAtom.lit '<'),
      RItem.ch (RAtom.lit '='), RItem.star RAtom.space, RItem.capPlus RAtom.dot], "le"),
    ([RItem.capPlus RAtom.word, RItem.plus RAtom.space] ++ lits "diferente" ++
       [RItem.plus RAtom.space] ++ lits "de" ++
       [RItem.plus RAtom.space, RItem.capPlus RAtom.dot], "ne"),
    ([RItem.capPlus RAtom.word, RItem.star RAtom.space, RItem.ch (RAtom.lit '!'),
      RItem.ch (RAtom.lit '='), RItem.star RAtom.space, RItem.capPlus RAtom.dot], "ne"),
    ([RItem.capPlus RAtom.word, RItem.plus RAtom.space] ++ lits "ap" ++
       [RItem.ch (RAtom.cls ['ó', 'o']), RItem.ch (RAtom.lit 's'),
        RItem.plus RAtom.space, RItem.capPlus RAtom.dot], "gt"),
    ([RItem.capPlus RAtom.word, RItem.plus RAtom.space] ++ lits "antes" ++
       [RItem.plus RAtom.space] ++ lits "de" ++
       [RItem.plus RAtom.space, RItem.capPlus RAtom.dot], "lt") ]

/-- Quote stripping on the captured value (`value.substring(1, length-1)`
when the value both starts and ends with the same kind of quote). -/
def stripQuotes (value : String) : String :=
  if (value.data.head? = some '"' ∧ value.data.getLast? = some '"') ∨
     (value.data.head? = some '\'' ∧ value.data.getLast? = some '\'') then
    if value.data.length ≥ 2 then String.mk ((value.data.drop 1).dropLast) else value
  else value

/-- `parseFilterInput`: run the pattern bank in order, return the single-entry
filter object of the first matching pattern, `none` when no pattern matches
(the source throws `Formato de filtro não reconhecido`). -/
def parseFilterInput (input : String) : Option (List (String × FilterVal)) :=
  filterPatterns.findSome? (fun p =>
    match regexSearch p.1 input.data with
    | some (field :: value :: _) =>
      some [(jsTrim field, FilterVal.cond p.2 (stripQuotes (jsTrim value)))]
    | _ => none)

/-- `processFilterStep`. -/
def processFilterStep (session : QuerySession) (input : String) :
    QuerySession × StepResponse :=
  let normalizedInput := jsToLower (jsTrim input)
  let fieldsMsg := "Filtro definido.\n\nQuais campos você deseja incluir nos resultados?\nInforme os nomes dos campos separados por vírgula (ex: \"nome, email, telefone\").\n\nSe quiser todos os campos, responda \"todos\"."
  if ["não", "nao", "sem filtro", "sem", "n", "no", "none"].contains normalizedInput then
    ({ session with filter := some [], currentStep := "fields" },
     { message := fieldsMsg, completed := false })
  else if session.action = some "get" then
    ({ session with
        filter := some [("id", FilterVal.raw (jsTrim input))]
        currentStep := "fields" },
     { message := fieldsMsg, completed := false })
  else
    match parseFilterInput normalizedInput with
    | some f =>
      ({ session with filter := some f, currentStep := "fields" },
       { message := fieldsMsg, completed := false })
    | none =>
      (session,
       { message := "Não foi possível interpretar o filtro: Formato de filtro não reconhecido\n\nPor favor, tente novamente com um formato como \"campo operador valor\" (ex: \"nome contém Microsoft\") ou responda \"sem filtro\"."
         completed := false })

/-- `buildQuerySummary` (display only). -/
def buildQuerySummary (session : QuerySession) : String :=
  match session.entity, session.action with
  | some e, some a => "- Entidade: " ++ e ++ "\n- Ação: " ++ a
  | _, _ => "Consulta incompleta"

/-- `processFieldsStep`. -/
def processFieldsStep (session : QuerySession) (input : String) :
    QuerySession × StepResponse :=
  let normalizedInput := jsToLower (jsTrim input)
  let session2 :=
    if ["todos", "all", "tudo", "*"].contains normalizedInput then
      { session with fields := none }
    else
      let fieldList :=
        ((strSplit (fun c => c = ',') normalizedInput).map jsTrim).filter (fun f => f ≠ "")
      { session with fields := some fieldList }
  if session2.action = some "get" then
    ({ session2 with currentStep := "confirm" },
     { message := "Campos definidos.\n\nResumo da sua consulta:\n" ++
         buildQuerySummary session2 ++ "\n\nDeseja executar esta consulta? (sim/não)"
       completed := false })
  else if session2.action = some "count" then
    ({ session2 with currentStep := "confirm" },
     { message := "Campos definidos (note que para contagem, os campos são ignorados).\n\nResumo da sua consulta:\n" ++
         buildQuerySummary session2 ++ "\n\nDeseja executar esta consulta? (sim/não)"
       completed := false })
  else
    ({ session2 with currentStep := "orderBy" },
     { message := "Campos definidos.\n\nComo você deseja ordenar os resultados?\nInforme o campo e a direção (ex: \"nome asc\" ou \"data_criacao desc\").\n\nSe não quiser ordenação específica, responda \"padrão\"."
       completed := false })

/-- `parseOrderByInput`: `field asc`/`field desc` phrases (with Portuguese
direction synonyms), or a bare `\w+` field name meaning ascending. -/
def parseOrderByInput (input : String) : Option String :=
  let ascPattern := [RItem.capPlus RAtom.word, RItem.plus RAtom.space,
    RItem.capAlt ["asc", "ascendente", "crescente"]]
  let descPattern := [RItem.capPlus RAtom.word, RItem.plus RAtom.space,
    RItem.capAlt ["desc", "descendente", "decrescente"]]
  match regexSearch ascPattern input.data with
  | some (field :: _) => some (jsTrim field ++ " asc")
  | _ =>
    match regexSearch descPattern input.data with
    | some (field :: _) => some (jsTrim field ++ " desc")
    | _ =>
      let field := jsTrim input
      if field ≠ "" ∧ field.data.all isJsWord then some (field ++ " asc")
      else none

/-- `processOrderByStep`. -/
def processOrderByStep (session : QuerySession) (input : String) :
    QuerySession × StepResponse :=
  let normalizedInput := jsToLower (jsTrim input)
  let limitMsg := "Ordenação definida.\n\nQuantos registros você deseja retornar no máximo?\nInforme um número ou responda \"padrão\" para usar o limite padrão (50)."
  if ["padrão", "padrao", "default", "sem", "não", "nao"].contains normalizedInput then
    ({ session with orderBy := some "createdon desc", currentStep := "limit" },
     { message := limitMsg, completed := false })
  else
    match parseOrderByInput normalizedInput with
    | some ob =>
      ({ session with orderBy := some ob, currentStep := "limit" },
       { message := limitMsg, completed := false })
    | none =>
      (session,
       { message := "Não foi possível interpretar a ordenação: Formato de ordenação não reconhecido\n\nPor favor, tente novamente com um formato como \"campo direção\" (ex: \"nome asc\") ou responda \"padrão\"."
         completed := false })

/-- JS `parseInt` in base 10: skip leading whitespace, optional sign, read
leading decimal digits, ignore the rest; `none` models `NaN`. -/
def jsParseInt (s : String) : Option Int :=
  let l := s.data.dropWhile isJsSpace
  let (sign, l2) : Int × List Char :=
    match l with
    | '-' :: rest => (-1, rest)
    | '+' :: rest => (1, rest)
    | _ => (1, l)
  let digits := l2.takeWhile Char.isDigit
  if digits.isEmpty then none
  else some (sign * (digits.foldl (fun acc c => acc * 10 + (c.toNat - '0'.toNat)) 0 : Nat))

/-- `processLimitStep`. -/
def processLimitStep (session : QuerySession) (input : String) :
    QuerySession × StepResponse :=
  let normalizedInput := jsToLower (jsTrim input)
  let session2opt :=
    if ["padrão", "padrao", "default", "sem", "não", "nao"].contains normalizedInput then
      some { session with limit := some 50 }
    else
      match jsParseInt normalizedInput with
      | some n => if n > 0 then some { session with limit := some n.toNat } else none
      | none => none
  match session2opt with
  | some session2 =>
    ({ session2 with currentStep := "confirm" },
     { message := "Limite definido.\n\nResumo da sua consulta:\n" ++
         buildQuerySummary session2 ++ "\n\nDeseja executar esta consulta? (sim/não)"
       completed := false })
  | none =>
    (session,
     { message := "Valor inválido. Por favor, informe um número positivo ou responda \"padrão\"."
       completed := false })

/-- The string a JS template literal produces for a filter value
(`${filterInfo}` on the `id` branch): the string itself, or
`[object Object]` for an `{operator, value}` record. -/
def filterValToString (fv : FilterVal) : String :=
  match fv with
  | .raw s => s
  | .cond _ _ => "[object Object]"

/-- The `{operator, value}` destructuring of a filter entry: a plain string
value has `operator === undefined`. -/
def filterValCond (fv : FilterVal) : Option (String × String) :=
  match fv with
  | .raw _ => none
  | .cond op v => some (op, v)

/-- `buildODataFilter` (queryAssistantService.ts): render each entry, with
the `id` special case, join with ` and `; entries whose operator is not
recognized are dropped (the source only logs a warning). -/
def buildODataFilter (entity : String) (filters : List (String × FilterVal)) : String :=
  if filters.isEmpty then ""
  else
    let parts := filters.filterMap (fun p =>
      if p.1 = "id" then
        let idField :=
          (if entity.data.getLast? = some 's' then String.mk entity.data.dropLast
           else entity) ++ "id"
        some (idField ++ " eq " ++ filterValToString p.2)
      else
        match filterValCond p.2 with
        | none => none
        | some (operator, value) =>
          if operator = "eq" ∨ operator = "ne" ∨ operator = "gt" ∨
             operator = "lt" ∨ operator = "ge" ∨ operator = "le" then
            some (p.1 ++ " " ++ operator ++ " '" ++ value ++ "'")
          else if operator = "contains" ∨ operator = "startswith" ∨
              operator = "endswith" then
            some (operator ++ "(" ++ p.1 ++ ", '" ++ value ++ "')")
          else none)
    String.intercalate " and " parts

/-- `executeQuery`: run the session's accumulated query against the
connector. -/
def executeQuery (conn : Connector) (session : QuerySession) :
    Except String QueryResult :=
  match session.entity, session.action with
  | some entity, some action =>
    let filter := buildODataFilter entity (session.filter.getD [])
    let filterOpt := if filter = "" then none else some filter
    if action = "list" then
      match conn.queryEntities entity
        { filter := filterOpt, select := session.fields,
          orderBy := session.orderBy, top := session.limit } with
      | .ok l => .ok (QueryResult.records l)
      | .error e => .error e
    else if action = "get" then
      match conn.queryEntities entity
        { filter := filterOpt, select := session.fields, top := some 1 } with
      | .ok [] => .error "Nenhum registro encontrado com os filtros especificados."
      | .ok (r :: _) => .ok (QueryResult.single r)
      | .error e => .error e
    else if action = "count" then
      match conn.queryEntities entity
        { filter := filterOpt, select := some ["createdon"], top := some 1000 } with
      | .ok l => .ok (QueryResult.countResult l.length entity filter)
      | .error e => .error e
    else .error ("Ação '" ++ action ++ "' não suportada.")
  | _, _ => .error "Parâmetros de consulta incompletos"

/-- `processConfirmStep`. -/
def processConfirmStep (conn : Connector) (session : QuerySession) (input : String) :
    QuerySession × StepResponse :=
  let normalizedInput := jsToLower (jsTrim input)
  if ["sim", "yes", "s", "y", "confirmar", "executar", "ok"].contains normalizedInput then
    match executeQuery conn session with
    | .ok result =>
      ({ session with completed := true },
       { message := "Consulta executada com sucesso!", completed := true,
         result := some result })
    | .error e =>
      (session,
       { message := "Erro ao executar a consulta: " ++ e ++
           "\n\nDeseja modificar sua consulta? (sim/não)"
         completed := false })
  else if ["não", "nao", "no", "n", "cancelar", "cancel"].contains normalizedInput then
    ({ session with
        currentStep := "entity"
        entity := none
        action := none
        filter := none
        fields := none
        orderBy := none
        limit := none },
     { message := "Consulta cancelada. Vamos começar novamente.\n\nQual entidade você deseja consultar? (ex: contas, contatos, casos, oportunidades)"
       completed := false })
  else
    (session,
     { message := "Resposta não reconhecida. Por favor, responda \"sim\" para executar a consulta ou \"não\" para cancelar."
       completed := false })

/-- The per-step dispatch of `processInput` (`switch (session.currentStep)`). -/
def dispatchStep (conn : Connector) (session : QuerySession) (input : String) :
    QuerySession × StepResponse :=
  if session.currentStep = "entity" then processEntityStep conn session input
  else if session.currentStep = "action" then processActionStep session input
  else if session.currentStep = "filter" then processFilterStep session input
  else if session.currentStep = "fields" then processFieldsStep session input
  else if session.currentStep = "orderBy" then processOrderByStep session input
  else if session.currentStep = "limit" then processLimitStep session input
  else if session.currentStep = "confirm" then processConfirmStep conn session input
  else (session,
    { message := "Erro: passo desconhecido '" ++ session.currentStep ++ "'."
      completed := false })

/-- `processInput`: look the session up (an unknown id yields a "session not
found" result, not an exception), refresh `lastActivity`, dispatch on the
current step and store the mutated session back. -/
def processInput (conn : Connector) (store : SessionStore) (sessionId : String)
    (input : String) (now : Int) : SessionStore × StepResponse :=
  match assocFind store sessionId with
  | none =>
    (store,
     { message := "Sessão não encontrada ou expirada. Por favor, inicie uma nova sessão."
       completed := false })
  | some session =>
    let session1 := { session with lastActivity := now }
    let (session2, response) := dispatchStep conn session1 input
    (assocSet store sessionId session2, response)

/-- `cleanupExpiredSessions`: delete every session whose `lastActivity` is
more than 30 minutes before `now`. -/
def cleanupExpiredSessions (now : Int) (store : SessionStore) : SessionStore :=
  store.filter (fun p =>
    ! (now > p.2.lastActivity + sessionExpirationMinutes * 60 * 1000))

/-- `endSession`: delete a session by id, reporting whether it existed. -/
def endSession (store : SessionStore) (sessionId : String) : SessionStore × Bool :=
  ((assocFind store sessionId).elim store
    (fun _ => store.filter (fun p => p.1 ≠ sessionId)),
   (assocFind store sessionId).isSome)

/-- Feed a list of user turns to `processInput` one after another, returning
the final store and the last response. -/
def runInputs (conn : Connector) (sessionId : String) (now : Int) :
    SessionStore → List String → SessionStore × StepResponse
  | store, [] =>
    (store, { message := "", completed := false })
  | store, [input] => processInput conn store sessionId input now
  | store, input :: rest =>
    runInputs conn sessionId now (processInput conn store sessionId input now).1 rest

end QueryAssistant

/-! ## NLQueryService (src/services/nlQueryService.ts)

Free-text query parsing: diacritic-stripping normalization, stop-word
removal, the single left-to-right token scan (action / entity / limit /
filter-triple rules), the `campos` field-list regex, the field-synonym
mapping and the OData filter builder, and `processQuery` itself.
`processQuery` additionally returns the list of `queryEntities` connector
calls it performed, so that frame properties ("no connector operation was
invoked") can be stated. -/

namespace NLQuery

open QueryAssistant (DynRecord QueryOptions FilterVal filterValCond jsParseInt)

/-- Strip the combining accent a `normalize('NFD')` +
`replace(/[̀-ͯ]/g, '')` round-trip removes, for the Latin-1
letters that occur in Portuguese text; other characters are unchanged. -/
def stripDiacritic (c : Char) : Char :=
  if c = 'á' ∨ c = 'à' ∨ c = 'â' ∨ c = 'ã' ∨ c = 'ä' then 'a'
  else if c = 'Á' ∨ c = 'À' ∨ c = 'Â' ∨ c = 'Ã' ∨ c = 'Ä' then 'A'
  else if c = 'é' ∨ c = 'è' ∨ c = 'ê' ∨ c = 'ë' then 'e'
  else if c = 'É' ∨ c = 'È' ∨ c = 'Ê' ∨ c = 'Ë' then 'E'
  else if c = 'í' ∨ c = 'ì' ∨ c = 'î' ∨ c = 'ï' then 'i'
  else if c = 'Í' ∨ c = 'Ì' ∨ c = 'Î' ∨ c = 'Ï' then 'I'
  else if c = 'ó' ∨ c = 'ò' ∨ c = 'ô' ∨ c = 'õ' ∨ c = 'ö' then 'o'
  else if c = 'Ó' ∨ c = 'Ò' ∨ c = 'Ô' ∨ c = 'Õ' ∨ c = 'Ö' then 'O'
  else if c = 'ú' ∨ c = 'ù' ∨ c = 'û' ∨ c = 'ü' then 'u'
  else if c = 'Ú' ∨ c = 'Ù' ∨ c = 'Û' ∨ c = 'Ü' then 'U'
  else if c = 'ç' then 'c'
  else if c = 'Ç' then 'C'
  else if c = 'ñ' then 'n'
  else if c = 'Ñ' then 'N'
  else c

/-- `normalizeText`: strip diacritics, then lower-case. -/
def normalizeText (s : String) : String :=
  jsToLower (String.mk (s.data.map stripDiacritic))

/-- The `entityMappings` table of NLQueryService. -/
def entityMappings : List (String × String) :=
  [("conta", "accounts"), ("contas", "accounts"),
   ("account", "accounts"), ("accounts", "accounts"),
   ("contato", "contacts"), ("contatos", "contacts"),
   ("contact", "contacts"), ("contacts", "contacts"),
   ("caso", "incidents"), ("casos", "incidents"),
   ("case", "incidents"), ("cases", "incidents"),
   ("incidents", "incidents"),
   ("oportunidade", "opportunities"), ("oportunidades", "opportunities"),
   ("opportunity", "opportunities"), ("opportunities", "opportunities"),
   ("lead", "leads"), ("leads", "leads"),
   ("atividade", "activities"), ("atividades", "activities"),
   ("activity", "activities"), ("activities", "activities"),
   ("tarefa", "tasks"), ("tarefas", "tasks"),
   ("task", "tasks"), ("tasks", "tasks"),
   ("email", "emails"), ("emails", "emails"),
   ("reunião", "appointments"), ("reuniões", "appointments"),
   ("appointment", "appointments"), ("appointments", "appointments"),
   ("telefone", "phonecalls"), ("chamada", "phonecalls"),
   ("chamadas", "phonecalls"), ("phonecall", "phonecalls"),
   ("phonecalls", "phonecalls")]

/-- The `actionMappings` table. -/
def actionMappings : List (String × String) :=
  [("mostrar", "list"), ("listar", "list"), ("exibir", "list"),
   ("buscar", "list"), ("encontrar", "list"), ("pesquisar", "list"),
   ("procurar", "list"),
   ("obter", "get"), ("pegar", "get"), ("detalhar", "get"), ("detalhes", "get"),
   ("criar", "create"), ("adicionar", "create"), ("novo", "create"),
   ("nova", "create"),
   ("atualizar", "update"), ("modificar", "update"), ("editar", "update"),
   ("alterar", "update"),
   ("deletar", "delete"), ("excluir", "delete"), ("remover", "delete"),
   ("apagar", "delete")]

/-- The per-entity `fieldMappings` synonym tables. -/
def fieldMappings : List (String × List (String × String)) :=
  [("accounts",
    [("nome", "name"), ("email", "emailaddress1"), ("telefone", "telephone1"),
     ("site", "websiteurl"), ("website", "websiteurl"),
     ("endereço", "address1_composite"), ("cidade", "address1_city"),
     ("estado", "address1_stateorprovince"), ("país", "address1_country"),
     ("cep", "address1_postalcode"), ("receita", "revenue"),
     ("funcionários", "numberofemployees"), ("setor", "industrycode"),
     ("tipo", "accountcategorycode"), ("dono", "_ownerid_value"),
     ("proprietário", "_ownerid_value"), ("criado", "createdon"),
     ("modificado", "modifiedon")]),
   ("contacts",
    [("nome", "firstname"), ("sobrenome", "lastname"),
     ("email", "emailaddress1"), ("telefone", "telephone1"),
     ("celular", "mobilephone"), ("cargo", "jobtitle"),
     ("departamento", "department"), ("conta", "_parentcustomerid_value"),
     ("empresa", "_parentcustomerid_value"), ("endereço", "address1_composite"),
     ("cidade", "address1_city"), ("estado", "address1_stateorprovince"),
     ("país", "address1_country"), ("cep", "address1_postalcode"),
     ("dono", "_ownerid_value"), ("proprietário", "_ownerid_value"),
     ("criado", "createdon"), ("modificado", "modifiedon")]),
   ("incidents",
    [("título", "title"), ("assunto", "title"), ("descrição", "description"),
     ("cliente", "_customerid_value"), ("status", "statuscode"),
     ("prioridade", "prioritycode"), ("origem", "caseorigincode"),
     ("tipo", "casetypecode"), ("dono", "_ownerid_value"),
     ("proprietário", "_ownerid_value"), ("criado", "createdon"),
     ("modificado", "modifiedon"), ("resolvido", "resolvedon")])]

/-- The `operatorMappings` table. -/
def operatorMappings : List (String × String) :=
  [("igual", "eq"), ("igual a", "eq"), ("=", "eq"), ("==", "eq"),
   ("diferente", "ne"), ("diferente de", "ne"), ("!=", "ne"), ("<>", "ne"),
   ("maior", "gt"), ("maior que", "gt"), (">", "gt"),
   ("menor", "lt"), ("menor que", "lt"), ("<", "lt"),
   ("maior ou igual", "ge"), ("maior ou igual a", "ge"), (">=", "ge"),
   ("menor ou igual", "le"), ("menor ou igual a", "le"), ("<=", "le"),
   ("contém", "contains"), ("contem", "contains"),
   ("inicia com", "startswith"), ("começa com", "startswith"),
   ("termina com", "endswith")]

/-- The stop-word list of `parseQuery`. -/
def stopWords : List String :=
  ["o", "a", "os", "as", "um", "uma", "uns", "umas", "de", "do", "da", "dos",
   "das", "no", "na", "nos", "nas", "ao", "aos", "à", "às", "pelo", "pela",
   "pelos", "pelas", "com", "para", "por", "em", "sobre", "sob", "entre",
   "que", "quem", "qual", "quais", "quando", "onde", "como", "e", "ou",
   "mas", "porem", "todavia", "entretanto", "contudo"]

/-- The keywords that introduce a limit ("top 10", "limite 5", ...). -/
def limitKeywords : List String :=
  ["top", "limite", "limitar", "limitado", "maximo", "max"]

/-- The accumulating result of `parseQuery`'s token scan. -/
structure NLParseState where
  action : Option String := none
  entity : Option String := none
  filters : List (String × FilterVal) := []
  limit : Option Int := none
deriving DecidableEq

/-- The next word, when it `parseInt`s to a positive integer (the guard of
the limit rule). -/
def limitCandidate (rest : List String) : Option Int :=
  match rest with
  | next :: _ =>
    (match jsParseInt next with
     | some n => if n > 0 then some n else none
     | none => none)
  | [] => none

/-- One pass of the left-to-right scan of `parseQuery` over the
stop-word-free token list: first unclaimed action word, first unclaimed
entity word, the limit rule (keyword + positive integer, both consumed),
then the 3-token `field operator value` window; unmatched tokens are
silently dropped.  The fuel argument only bounds the recursion (the loop
consumes at least one token per iteration, so `words.length` fuel is always
enough). -/
def scanWordsAux : Nat → List String → NLParseState → NLParseState
  | 0, _, st => st
  | _ + 1, [], st => st
  | fuel + 1, w :: rest, st =>
    if st.action.isNone ∧ (assocFind actionMappings w).isSome then
      scanWordsAux fuel rest { st with action := assocFind actionMappings w }
    else if st.entity.isNone ∧ (assocFind entityMappings w).isSome then
      scanWordsAux fuel rest { st with entity := assocFind entityMappings w }
    else if limitKeywords.contains w ∧ (limitCandidate rest).isSome then
      scanWordsAux fuel (rest.drop 1) { st with limit := limitCandidate rest }
    else
      match rest.head?, (rest.drop 1).head? with
      | some op, some value =>
        (match assocFind operatorMappings op with
         | some opTag =>
           scanWordsAux fuel (rest.drop 2)
             { st with filters := assocSet st.filters w (FilterVal.cond opTag value) }
         | none => scanWordsAux fuel rest st)
      | _, _ => scanWordsAux fuel rest st

/-- The token scan of `parseQuery`. -/
def scanWords (words : List String) (st : NLParseState) : NLParseState :=
  scanWordsAux words.length words st

/-- The result record of `parseQuery`. -/
structure NLParseResult where
  entity : Option String
  action : Option String
  filters : List (String × FilterVal)
  fields : Option (List String)
  limit : Option Int
deriving DecidableEq

/-- JS `split(/\s*,\s*/)`: split on commas, absorbing the whitespace
around each comma into the separator. -/
def splitCommaWS (s : String) : List String :=
  let dropLeadingWS := fun (t : String) => String.mk (t.data.dropWhile isJsSpace)
  let dropTrailingWS := fun (t : String) =>
    String.mk ((t.data.reverse.dropWhile isJsSpace).reverse)
  let rec go : List String → List String
    | [] => []
    | [last] => [dropLeadingWS last]
    | mid :: rest => dropLeadingWS (dropTrailingWS mid) :: go rest
  match strSplit (fun c => c = ',') s with
  | [] => []
  | [one] => [one]
  | first :: rest => dropTrailingWS first :: go rest

/-- The `campos\s+([^.]+)` field-list regex. -/
def camposPattern : List RItem :=
  lits "campos" ++ [RItem.plus RAtom.space, RItem.capPlus RAtom.notDot]

/-- `parseQuery`: tokenize, drop stop-words, run the scan, default the
action to `list`, and extract an explicit `campos ...` field list from the
whole normalized string. -/
def parseQuery (query : String) : NLParseResult :=
  let words := (strSplit isJsSpace query).filter
    (fun w => w ≠ "" ∧ ¬ stopWords.contains w)
  let st := scanWords words {}
  let fields :=
    match regexSearch camposPattern query.data with
    | some (captured :: _) => some (splitCommaWS captured)
    | _ => none
  { entity := st.entity
    action := some (st.action.getD "list")
    filters := st.filters
    fields := fields
    limit := st.limit }

/-- `mapFieldName`: entity-specific natural-language → API field synonym,
unmapped names pass through unchanged. -/
def mapFieldName (entity : String) (field : String) : String :=
  match assocFind fieldMappings entity with
  | some table => (assocFind table field).getD field
  | none => field

/-- `mapFields`. -/
def mapFields (entity : String) (fields : Option (List String)) :
    Option (List String) :=
  match fields with
  | none => none
  | some [] => none
  | some l => some (l.map (fun f => mapFieldName entity (jsTrim f)))

/-- `buildODataFilter` (nlQueryService.ts): like the assistant's builder but
with field-synonym mapping and no `id` special case. -/
def buildODataFilter (entity : String) (filters : List (String × FilterVal)) : String :=
  if filters.isEmpty then ""
  else
    let parts := filters.filterMap (fun p =>
      match filterValCond p.2 with
      | none => none
      | some (operator, value) =>
        let mappedField := mapFieldName entity p.1
        if operator = "eq" ∨ operator = "ne" ∨ operator = "gt" ∨
           operator = "lt" ∨ operator = "ge" ∨ operator = "le" then
          some (mappedField ++ " " ++ operator ++ " '" ++ value ++ "'")
        else if operator = "contains" ∨ operator = "startswith" ∨
            operator = "endswith" then
          some (operator ++ "(" ++ mappedField ++ ", '" ++ value ++ "')")
        else none)
    String.intercalate " and " parts

/-- The connector's `queryEntities` as seen by NLQueryService. -/
def NLConnector : Type :=
  String → QueryOptions → Except String (List DynRecord)

/-- The result record of `processQuery` (`{success, message?, entity?,
count?, results?, result?, filter?, fields?, query?}`). -/
structure NLResponse where
  success : Bool
  message : Option String := none
  entity : Option String := none
  count : Option Nat := none
  results : Option (List DynRecord) := none
  result : Option DynRecord := none
  filter : Option String := none
  fields : Option (List String) := none
  query : Option String := none
deriving DecidableEq

/-- A recorded connector invocation. -/
def ConnCall : Type := String × QueryOptions

/-- `executeListQuery`; the second component records the connector calls
made, `.error` models the rethrown connector exception. -/
def executeListQuery (conn : NLConnector) (entity : String)
    (filters : List (String × FilterVal)) (fields : Option (List String))
    (limit : Option Int) : Except String NLResponse × List ConnCall :=
  let odataFilter := buildODataFilter entity filters
  let selectFields := mapFields entity fields
  let opts : QueryOptions :=
    { filter := if odataFilter = "" then none else some odataFilter
      select := selectFields
      top := some ((limit.map Int.toNat).getD 50)
      orderBy := some "createdon desc" }
  match conn entity opts with
  | .ok results =>
    (.ok { success := true, entity := some entity, count := some results.length,
           results := some results, filter := some odataFilter,
           fields := selectFields },
     [(entity, opts)])
  | .error e => (.error e, [(entity, opts)])

/-- `executeGetQuery`. -/
def executeGetQuery (conn : NLConnector) (entity : String)
    (filters : List (String × FilterVal)) :
    Except String NLResponse × List ConnCall :=
  if filters.isEmpty then
    (.error "Para obter detalhes de um registro, é necessário especificar um ID ou um filtro único.",
     [])
  else
    let odataFilter := buildODataFilter entity filters
    let opts : QueryOptions := { filter := some odataFilter, top := some 1 }
    match conn entity opts with
    | .ok [] =>
      (.ok { success := false, entity := some entity,
             message := some "Nenhum registro encontrado com os filtros especificados.",
             filter := some odataFilter },
       [(entity, opts)])
    | .ok (r :: _) =>
      (.ok { success := true, entity := some entity, result := some r,
             filter := some odataFilter },
       [(entity, opts)])
    | .error e => (.error e, [(entity, opts)])

/-- `processQuery`: normalize, parse, dispatch on the detected action
(create/update/delete are refused without touching the connector), convert
any thrown error into a `{success:false}` result. -/
def processQuery (conn : NLConnector) (query : String) :
    NLResponse × List ConnCall :=
  let normalizedQuery := normalizeText query
  let parsed := parseQuery normalizedQuery
  match parsed.entity with
  | none =>
    ({ success := false
       message := some "Não foi possível identificar a entidade na consulta. Por favor, especifique a entidade (ex: contas, contatos, casos)."
       query := some normalizedQuery },
     [])
  | some entity =>
    let dispatched : Except String NLResponse × List ConnCall :=
      if parsed.action = some "list" then
        executeListQuery conn entity parsed.filters parsed.fields parsed.limit
      else if parsed.action = some "get" then
        executeGetQuery conn entity parsed.filters
      else if parsed.action = some "create" then
        (.ok { success := false
               message := some "A criação de registros via consulta em linguagem natural ainda não é suportada. Use a ferramenta específica para criar registros."
               query := some normalizedQuery },
         [])
      else if parsed.action = some "update" then
        (.ok { success := false
               message := some "A atualização de registros via consulta em linguagem natural ainda não é suportada. Use a ferramenta específica para atualizar registros."
               query := some normalizedQuery },
         [])
      else if parsed.action = some "delete" then
        (.ok { success := false
               message := some "A exclusão de registros via consulta em linguagem natural ainda não é suportada. Use a ferramenta específica para excluir registros."
               query := some normalizedQuery },
         [])
      else
        executeListQuery conn entity parsed.filters parsed.fields parsed.limit
    match dispatched with
    | (.ok resp, trace) => (resp, trace)
    | (.error e, trace) =>
      ({ success := false
         message := some ("Erro ao processar consulta: " ++ e)
         query := some query },
       trace)

end NLQuery


/-! ## Concrete fixtures used by witness theorems -/

/-- A fresh assistant session fixture. -/
def wSession : QueryAssistant.QuerySession :=
  { id := "a"
    startTime := 0
    lastActivity := 0
    currentStep := "entity"
    completed := false }

/-- A one-session store fixture. -/
def wStore : QueryAssistant.SessionStore := [("a", wSession)]

/-- A connector fixture whose calls all succeed (empty record sets). -/
def wConnOk : QueryAssistant.Connector :=
  { getEntityMetadata := fun _ => true
    queryEntities := fun _ _ => .ok [] }

/-- A connector fixture that validates schemas but whose queries throw. -/
def wConnErr : QueryAssistant.Connector :=
  { getEntityMetadata := fun _ => true
    queryEntities := fun _ _ => .error "timeout" }

/-- A connector fixture that rejects every schema fetch. -/
def wConnBad : QueryAssistant.Connector :=
  { getEntityMetadata := fun _ => false
    queryEntities := fun _ _ => .error "no" }

/-- A session fixture sitting at the `confirm` step of a `list` query. -/
def wConfirmSession : QueryAssistant.QuerySession :=
  { id := "c"
    startTime := 0
    lastActivity := 0
    currentStep := "confirm"
    entity := some "accounts"
    action := some "list"
    filter := some []
    fields := none
    orderBy := some "createdon desc"
    limit := some 50
    completed := false }

/-- An NL connector fixture. -/
def wNLConnOk : NLQuery.NLConnector := fun _ _ => .ok []

/-- A metadata connector fixture: one `account` entity whose document holds
a single `name` attribute. -/
def wMetaConn : MetadataExplorer.MetadataConnector := fun name _ =>
  if name = "account" then
    some { LogicalName := "account"
           SchemaName := some "Account"
           DisplayName := some "Conta"
           DisplayCollectionName := some "Contas"
           EntitySetName := some "accounts"
           Description := none
           PrimaryIdAttribute := "accountid"
           PrimaryNameAttribute := some "name"
           IsCustomEntity := some false
           Attributes := some
             [{ LogicalName := "name"
                SchemaName := some "Name"
                DisplayName := some "Nome"
                AttributeType := "String"
                Description := none
                RequiredLevel := some "ApplicationRequired"
                IsPrimaryId := false
                IsPrimaryName := true
                MaxLength := some 100
                MinValue := none
                MaxValue := none
                Precision := none
                OptionSet := none }]
           ManyToOneRelationships := none
           OneToManyRelationships := none
           ManyToManyRelationships := none }
  else none

/-- A metadata cache fixture holding an attribute-less `account` entry. -/
def wMetaCache : MetadataExplorer.MetadataCache :=
  { entities :=
      [("account",
        { name := "account"
          displayName := "Conta"
          displayCollectionName := "Contas"
          description := none
          primaryIdField := "accountid"
          primaryNameField := some "name"
          isCustomEntity := false
          attributes := []
          relationships := [] })]
    lastUpdated := 1000 }

/-! ## Shared helper lemmas -/

theorem assocFind_eq_none_of_not_mem {α : Type} (l : List (String × α)) (k : String)
    (h : k ∉ l.map Prod.fst) : assocFind l k = none := by
  induction l with
  | nil => rfl
  | cons hd tl ih =>
    simp only [List.map_cons, List.mem_cons] at h
    push_neg at h
    simp only [assocFind]
    rw [if_neg (fun he => h.1 he.symm)]
    exact ih h.2

theorem filter_keys_subset {α : Type} (l : List (String × α)) (p : String × α → Bool)
    (k : String) (h : k ∉ l.map Prod.fst) : k ∉ (l.filter p).map Prod.fst := by
  intro hk
  apply h
  simp only [List.mem_map] at hk ⊢
  obtain ⟨x, hx, hxk⟩ := hk
  exact ⟨x, (List.mem_filter.mp hx).1, hxk⟩

theorem cleanupExpired_cons (now : Int) (hd : String × QueryAssistant.QuerySession)
    (tl : QueryAssistant.SessionStore) :
    QueryAssistant.cleanupExpiredSessions now (hd :: tl) =
      if now > hd.2.lastActivity + QueryAssistant.sessionExpirationMinutes * 60 * 1000
      then QueryAssistant.cleanupExpiredSessions now tl
      else hd :: QueryAssistant.cleanupExpiredSessions now tl := by
  by_cases h : now > hd.2.lastActivity + QueryAssistant.sessionExpirationMinutes * 60 * 1000 <;>
    simp [QueryAssistant.cleanupExpiredSessions, List.filter_cons, h]

/-! ## Claim C3 -/

/-- Claim C3 (the divergence, evaluated on the code): the source's
`normalizeEntityName` computes the strip-one-trailing-`s` `singularName` but
never uses it, so the unknown plural `emails` (not a key of the synonym
table) is returned as `emails`, not the singular `email` the claim promises;
the synonym-table part (`cases` → `incident`) does behave as claimed. -/
theorem c3_normalize_no_strip_s :
    MetadataExplorer.normalizeEntityName "emails" = "emails" ∧
    MetadataExplorer.normalizeEntityName "emails" ≠ "email" ∧
    assocFind MetadataExplorer.commonMappings "emails" = none ∧
    MetadataExplorer.normalizeEntityName "cases" = "incident" := by
  refine ⟨by decide, by decide, by decide, by decide⟩

/-! ## Claim C9 -/

/-- Claim C9: entity-name normalization is idempotent on the synonym table's
domain, and `cases` and `case` both normalize to `incident`. -/
theorem c9_normalize_idempotent_on_synonyms :
    ((MetadataExplorer.commonMappings.map Prod.fst).all (fun x =>
        MetadataExplorer.normalizeEntityName (MetadataExplorer.normalizeEntityName x) ==
          MetadataExplorer.normalizeEntityName x)) = true ∧
    MetadataExplorer.normalizeEntityName "cases" = "incident" ∧
    MetadataExplorer.normalizeEntityName "case" = "incident" ∧
    MetadataExplorer.normalizeEntityName "cases" = MetadataExplorer.normalizeEntityName "case" := by
  refine ⟨by decide, by decide, by decide, by decide⟩

/-! ## Claim C5 -/

/-- Claim C5: with distinct session ids, the expiry sweep removes exactly the
sessions whose `lastActivity` lies more than 30 minutes before the sweep
time and keeps every other session unchanged; and `processInput` on an id
absent from the store returns a completed:false "session not found" result
with the store untouched (a normal result, not an exception). -/
theorem c5_expiry_sweep_and_not_found (now : Int) (store : QueryAssistant.SessionStore)
    (hnd : (store.map Prod.fst).Nodup) (sid : String) :
    (assocFind (QueryAssistant.cleanupExpiredSessions now store) sid =
      match assocFind store sid with
      | some s =>
        if now > s.lastActivity + QueryAssistant.sessionExpirationMinutes * 60 * 1000
        then none else some s
      | none => none) ∧
    (∀ conn input, assocFind store sid = none →
      QueryAssistant.processInput conn store sid input now =
        (store,
         { message := "Sessão não encontrada ou expirada. Por favor, inicie uma nova sessão."
           completed := false
           result := none })) := by
  constructor
  · induction store with
    | nil => simp [QueryAssistant.cleanupExpiredSessions, assocFind]
    | cons hd tl ih =>
      simp only [List.map_cons, List.nodup_cons] at hnd
      obtain ⟨hhd, htl⟩ := hnd
      have ihr := ih htl
      rw [cleanupExpired_cons]
      by_cases hk : hd.1 = sid
      · subst hk
        have habs : assocFind (QueryAssistant.cleanupExpiredSessions now tl) hd.1 = none := by
          simpa [QueryAssistant.cleanupExpiredSessions] using
            assocFind_eq_none_of_not_mem _ hd.1 (filter_keys_subset tl _ hd.1 hhd)
        by_cases hexp : now > hd.2.lastActivity +
            QueryAssistant.sessionExpirationMinutes * 60 * 1000
        · simp [hexp, assocFind, habs]
        · simp [hexp, assocFind]
      · by_cases hexp : now > hd.2.lastActivity +
            QueryAssistant.sessionExpirationMinutes * 60 * 1000
        · simpa [hexp, assocFind, hk] using ihr
        · simpa [hexp, assocFind, hk] using ihr
  · intro conn input hnone
    simp [QueryAssistant.processInput, hnone]

/-- Witness for C5: at the concrete store `wStore` (one session, last active
at time 0), a sweep at 2000001 ms (> 30 min) deletes the session, and
`processInput` on the unknown id `ghost` returns the not-found message. -/
theorem c5_witness :
    ((wStore.map Prod.fst).Nodup) ∧
    assocFind (QueryAssistant.cleanupExpiredSessions 2000001 wStore) "a" = none ∧
    (QueryAssistant.processInput wConnOk wStore "ghost" "oi" 2000001).2.message =
      "Sessão não encontrada ou expirada. Por favor, inicie uma nova sessão." := by
  have h := c5_expiry_sweep_and_not_found 2000001 wStore (by decide) "a"
  have h2 := c5_expiry_sweep_and_not_found 2000001 wStore (by decide) "ghost"
  refine ⟨by decide, ?_, ?_⟩
  · rw [h.1]; decide
  · rw [h2.2 wConnOk "oi" (by decide)]

/-! ## Claim C6 -/

/-- Claim C6: at the `confirm` step (whatever the accumulated action —
`list`, `get` or `count`), an affirmative answer whose connector call
throws yields a completed:false response whose message reports the error
and re-prompts (`Deseja modificar sua consulta? (sim/não)`), and the
session stays in the store with every accumulated field unchanged except
`lastActivity` (in particular it remains at `confirm`, not completed), so
the query can be retried.  "The connector call throws" is modelled by a
connector whose `queryEntities` returns `.error` on every request it could
receive. -/
theorem c6_confirm_error_preserves_session
    (conn : QueryAssistant.Connector) (store : QueryAssistant.SessionStore)
    (sid : String) (s : QueryAssistant.QuerySession) (input : String)
    (now : Int) (ent act e : String)
    (hfind : assocFind store sid = some s)
    (hstep : s.currentStep = "confirm")
    (hent : s.entity = some ent)
    (hact : s.action = some act)
    (hacts : act = "list" ∨ act = "get" ∨ act = "count")
    (hcompl : s.completed = false)
    (hyes : (["sim", "yes", "s", "y", "confirmar", "executar", "ok"].contains
      (jsToLower (jsTrim input))) = true)
    (herr : ∀ opts, conn.queryEntities ent opts = .error e) :
    (QueryAssistant.processInput conn store sid input now).2 =
      { message := "Erro ao executar a consulta: " ++ e ++
          "\n\nDeseja modificar sua consulta? (sim/não)"
        completed := false
        result := none } ∧
    assocFind (QueryAssistant.processInput conn store sid input now).1 sid =
      some { s with lastActivity := now } ∧
    ({ s with lastActivity := now } : QueryAssistant.QuerySession).currentStep = "confirm" ∧
    ({ s with lastActivity := now } : QueryAssistant.QuerySession).completed = false ∧
    ({ s with lastActivity := now } : QueryAssistant.QuerySession).entity = s.entity ∧
    ({ s with lastActivity := now } : QueryAssistant.QuerySession).action = s.action ∧
    ({ s with lastActivity := now } : QueryAssistant.QuerySession).filter = s.filter ∧
    ({ s with lastActivity := now } : QueryAssistant.QuerySession).fields = s.fields ∧
    ({ s with lastActivity := now } : QueryAssistant.QuerySession).orderBy = s.orderBy ∧
    ({ s with lastActivity := now } : QueryAssistant.QuerySession).limit = s.limit := by
  have hexec : QueryAssistant.executeQuery conn { s with lastActivity := now } =
      .error e := by
    rcases hacts with rfl | rfl | rfl <;>
      simp [QueryAssistant.executeQuery, hent, hact, herr]
  have hdisp : QueryAssistant.dispatchStep conn { s with lastActivity := now } input =
      ({ s with lastActivity := now },
       { message := "Erro ao executar a consulta: " ++ e ++
           "\n\nDeseja modificar sua consulta? (sim/não)"
         completed := false
         result := none }) := by
    simp only [QueryAssistant.dispatchStep, hstep]
    norm_num
    simp only [QueryAssistant.processConfirmStep, hyes, if_true]
    rw [hstep] at hexec
    simp [hexec]
  refine ⟨?_, ?_, hstep, hcompl, rfl, rfl, rfl, rfl, rfl, rfl⟩
  · simp [QueryAssistant.processInput, hfind, hdisp]
  · simp [QueryAssistant.processInput, hfind, hdisp, assocFind_assocSet_self]

/-- Witness for C6: two concrete confirm-step sessions — one accumulated
`list` query (`wConfirmSession`) and one `get` query — whose connector
calls throw `timeout`; in both the response invites a retry and the session
survives with only `lastActivity` advanced. -/
theorem c6_witness :
    ((QueryAssistant.processInput wConnErr [("c", wConfirmSession)] "c" "sim" 7).2 =
      { message := "Erro ao executar a consulta: timeout\n\nDeseja modificar sua consulta? (sim/não)"
        completed := false
        result := none } ∧
    assocFind (QueryAssistant.processInput wConnErr [("c", wConfirmSession)] "c" "sim" 7).1 "c" =
      some { wConfirmSession with lastActivity := 7 }) ∧
    ((QueryAssistant.processInput wConnErr
        [("g", { wConfirmSession with id := "g", action := some "get" })] "g" "sim" 9).2 =
      { message := "Erro ao executar a consulta: timeout\n\nDeseja modificar sua consulta? (sim/não)"
        completed := false
        result := none } ∧
    assocFind (QueryAssistant.processInput wConnErr
        [("g", { wConfirmSession with id := "g", action := some "get" })] "g" "sim" 9).1 "g" =
      some { wConfirmSession with id := "g", action := some "get", lastActivity := 9 }) := by
  have h1 := c6_confirm_error_preserves_session wConnErr [("c", wConfirmSession)] "c"
    wConfirmSession "sim" 7 "accounts" "list" "timeout"
    (by decide) (by decide) (by decide) (by decide) (Or.inl rfl) (by decide) (by decide)
    (fun _ => rfl)
  have h2 := c6_confirm_error_preserves_session wConnErr
    [("g", { wConfirmSession with id := "g", action := some "get" })] "g"
    { wConfirmSession with id := "g", action := some "get" } "sim" 9 "accounts" "get"
    "timeout"
    (by decide) (by decide) (by decide) (by decide) (Or.inr (Or.inl rfl)) (by decide)
    (by decide) (fun _ => rfl)
  exact ⟨⟨h1.1, h1.2.1⟩, ⟨h2.1, h2.2.1⟩⟩

/-! ## Claim C1 -/

/-- Claim C1: when `getEntityDetails` is asked for attributes
(`includeAttributes: true`) while the cache holds an entry for the
normalized entity whose attribute list is empty, the staleness test fires
(a reload from the connector happens before returning), and the returned
record's attributes are non-empty whenever the connector's metadata document
carries a non-empty attribute list — an incomplete cached record is never
silently returned. -/
theorem c1_partial_cache_forces_reload
    (conn : MetadataExplorer.MetadataConnector) (cache : MetadataExplorer.MetadataCache)
    (now : Int) (entityName : String) (opts : MetadataExplorer.EntityDetailsOptions)
    (e : MetadataExplorer.MetadataEntity) (md : MetadataExplorer.RawEntityMetadata)
    (attrsRaw : List MetadataExplorer.RawAttribute)
    (hfind : assocFind cache.entities (MetadataExplorer.normalizeEntityName entityName) = some e)
    (hempty : e.attributes = [])
    (hinc : opts.includeAttributes = some true)
    (hconn : conn (MetadataExplorer.normalizeEntityName entityName)
      (MetadataExplorer.loadMetadataOptions opts) = some md)
    (hattrs : md.Attributes = some attrsRaw)
    (hne : attrsRaw ≠ []) :
    MetadataExplorer.needsEntityLoad cache now
      (MetadataExplorer.normalizeEntityName entityName) opts = true ∧
    ∃ cache2 ent,
      MetadataExplorer.getEntityDetails conn cache now entityName opts = .ok (cache2, ent) ∧
      ent.attributes ≠ [] ∧
      ent.attributes.length = attrsRaw.length := by
  have hneed : MetadataExplorer.needsEntityLoad cache now
      (MetadataExplorer.normalizeEntityName entityName) opts = true := by
    simp [MetadataExplorer.needsEntityLoad, hfind, hempty, hinc]
  refine ⟨hneed, ?_⟩
  unfold MetadataExplorer.getEntityDetails MetadataExplorer.loadEntityDetails
  simp only [hneed, if_true, hconn, hinc, hattrs, Option.getD_some, Option.isSome_some,
    and_self, assocFind_assocSet_self]
  refine ⟨_, _, rfl, ?_, by simp⟩
  simp [hne]

/-- Witness for C1: the fixture cache holds `account` with `attributes = []`;
requesting attributes at time 2000 (cache not yet expired) still fires the
reload and yields the one-attribute record the fixture connector returns. -/
theorem c1_witness :
    MetadataExplorer.needsEntityLoad wMetaCache 2000
      (MetadataExplorer.normalizeEntityName "account")
      { includeAttributes := some true } = true ∧
    ∃ cache2 ent,
      MetadataExplorer.getEntityDetails wMetaConn wMetaCache 2000 "account"
        { includeAttributes := some true } = .ok (cache2, ent) ∧
      ent.attributes ≠ [] := by
  have h := c1_partial_cache_forces_reload wMetaConn wMetaCache 2000 "account"
    { includeAttributes := some true }
    { name := "account", displayName := "Conta", displayCollectionName := "Contas", description := none, primaryIdField := "accountid", primaryNameField := some "name", isCustomEntity := false, attributes := [], relationships := [] }
    { LogicalName := "account", SchemaName := some "Account", DisplayName := some "Conta", DisplayCollectionName := some "Contas", EntitySetName := some "accounts", Description := none, PrimaryIdAttribute := "accountid", PrimaryNameAttribute := some "name", IsCustomEntity := some false, Attributes := some [{ LogicalName := "name", SchemaName := some "Name", DisplayName := some "Nome", AttributeType := "String", Description := none, RequiredLevel := some "ApplicationRequired", IsPrimaryId := false, IsPrimaryName := true, MaxLength := some 100, MinValue := none, MaxValue := none, Precision := none, OptionSet := none }], ManyToOneRelationships := none, OneToManyRelationships := none, ManyToManyRelationships := none }
    [{ LogicalName := "name", SchemaName := some "Name", DisplayName := some "Nome", AttributeType := "String", Description := none, RequiredLevel := some "ApplicationRequired", IsPrimaryId := false, IsPrimaryName := true, MaxLength := some 100, MinValue := none, MaxValue := none, Precision := none, OptionSet := none }]
    (by decide) (by decide) (by decide) (by decide) (by decide) (by decide)
  exact ⟨h.1, h.2.imp (fun cache2 hc => hc.imp (fun ent he => ⟨he.1, he.2.1⟩))⟩

/-! ## Claim C4 -/

theorem processInput_found (conn : QueryAssistant.Connector)
    (store : QueryAssistant.SessionStore) (sid : String)
    (s : QueryAssistant.QuerySession) (input : String) (now : Int)
    (h : assocFind store sid = some s) :
    QueryAssistant.processInput conn store sid input now =
      (assocSet store sid
        (QueryAssistant.dispatchStep conn { s with lastActivity := now } input).1,
       (QueryAssistant.dispatchStep conn { s with lastActivity := now } input).2) := by
  simp [QueryAssistant.processInput, h]

/-- Claim C4: (a) every session `assistant.start` creates begins at step
`entity` with `completed = false`; (b) at the entity step, an input whose
schema fetch fails leaves the session at step `entity` and returns
completed:false; (c) the full walk entity → `1` → `sem filtro` → `todos` →
`padrão` → `padrão` → `sim` ends with completed:true and a non-null result
when the connector validates the entity and the final query succeeds. -/
theorem c4_assistant_fsm :
    (∀ store now rand, ∃ s,
      assocFind (QueryAssistant.startSession store now rand).1
        ("query-" ++ toString now ++ "-" ++ rand) = some s ∧
      s.currentStep = "entity" ∧ s.completed = false) ∧
    (∀ conn store sid s input now,
      assocFind store sid = some s → s.currentStep = "entity" →
      conn.getEntityMetadata
        ((assocFind QueryAssistant.entityMappings (jsToLower (jsTrim input))).getD
          (jsToLower (jsTrim input))) = false →
      (QueryAssistant.processInput conn store sid input now).2.completed = false ∧
      assocFind (QueryAssistant.processInput conn store sid input now).1 sid =
        some { s with lastActivity := now } ∧
      ({ s with lastActivity := now } : QueryAssistant.QuerySession).currentStep = "entity") ∧
    (∀ conn store now rand recs,
      conn.getEntityMetadata "accounts" = true →
      conn.queryEntities "accounts"
        { filter := none, select := none, orderBy := some "createdon desc",
          top := some 50 } = .ok recs →
      (QueryAssistant.runInputs conn ("query-" ++ toString now ++ "-" ++ rand) now
        (QueryAssistant.startSession store now rand).1
        ["contas", "1", "sem filtro", "todos", "padrão", "padrão", "sim"]).2.completed = true ∧
      (QueryAssistant.runInputs conn ("query-" ++ toString now ++ "-" ++ rand) now
        (QueryAssistant.startSession store now rand).1
        ["contas", "1", "sem filtro", "todos", "padrão", "padrão", "sim"]).2.result =
        some (QueryAssistant.QueryResult.records recs)) := by
  refine ⟨?_, ?_, ?_⟩
  · intro store now rand
    refine ⟨⟨"query-" ++ toString now ++ "-" ++ rand, now, now, "entity",
      none, none, none, none, none, none, false⟩, ?_, rfl, rfl⟩
    simp [QueryAssistant.startSession, assocFind_assocSet_self]
  · intro conn store sid s input now hfind hstep hbad
    refine ⟨?_, ?_, hstep⟩
    · simp [QueryAssistant.processInput, hfind, QueryAssistant.dispatchStep, hstep,
        QueryAssistant.processEntityStep, hbad]
    · simp [QueryAssistant.processInput, hfind, QueryAssistant.dispatchStep, hstep,
        QueryAssistant.processEntityStep, hbad, assocFind_assocSet_self]
  · intro conn store now rand recs hmeta hquery
    have e1 : jsToLower (jsTrim "contas") = "contas" := by decide
    have e2 : assocFind QueryAssistant.entityMappings "contas" = some "accounts" := by decide
    have e3 : jsToLower (jsTrim "1") = "1" := by decide
    have e4 : (["1", "listar", "list", "mostrar", "exibir", "buscar"].contains "1") = true := by
      decide
    have e5 : jsToLower (jsTrim "sem filtro") = "sem filtro" := by decide
    have e6 : (["não", "nao", "sem filtro", "sem", "n", "no", "none"].contains
      "sem filtro") = true := by decide
    have e7 : jsToLower (jsTrim "todos") = "todos" := by decide
    have e8 : (["todos", "all", "tudo", "*"].contains "todos") = true := by decide
    have e9 : jsToLower (jsTrim "padrão") = "padrão" := by decide
    have e10 : (["padrão", "padrao", "default", "sem", "não", "nao"].contains
      "padrão") = true := by decide
    have e11 : jsToLower (jsTrim "sim") = "sim" := by decide
    have e12 : (["sim", "yes", "s", "y", "confirmar", "executar", "ok"].contains
      "sim") = true := by decide
    set sid := "query-" ++ toString now ++ "-" ++ rand with hsid
    have step : ∀ (st : QueryAssistant.SessionStore) (s : QueryAssistant.QuerySession)
        (input : String), assocFind st sid = some s →
        QueryAssistant.processInput conn st sid input now =
          (assocSet st sid
            (QueryAssistant.dispatchStep conn { s with lastActivity := now } input).1,
           (QueryAssistant.dispatchStep conn { s with lastActivity := now } input).2) :=
      fun st s input h => processInput_found conn st sid s input now h
    have hd1 : (QueryAssistant.dispatchStep conn
        ⟨sid, now, now, "entity", none, none, none, none, none, none, false⟩ "contas").1 =
        ⟨sid, now, now, "action", some "accounts", none, none, none, none, none, false⟩ := by
      simp [QueryAssistant.dispatchStep, QueryAssistant.processEntityStep, e1, e2, hmeta]
    have hd2 : (QueryAssistant.dispatchStep conn
        ⟨sid, now, now, "action", some "accounts", none, none, none, none, none, false⟩ "1").1 =
        ⟨sid, now, now, "filter", some "accounts", some "list", none, none, none, none, false⟩ := by
      simp [QueryAssistant.dispatchStep, QueryAssistant.processActionStep, e3, e4]
    have hd3 : (QueryAssistant.dispatchStep conn
        ⟨sid, now, now, "filter", some "accounts", some "list", none, none, none, none,
          false⟩ "sem filtro").1 =
        ⟨sid, now, now, "fields", some "accounts", some "list", some [], none, none, none,
          false⟩ := by
      simp [QueryAssistant.dispatchStep, QueryAssistant.processFilterStep, e5, e6]
    have hd4 : (QueryAssistant.dispatchStep conn
        ⟨sid, now, now, "fields", some "accounts", some "list", some [], none, none, none,
          false⟩ "todos").1 =
        ⟨sid, now, now, "orderBy", some "accounts", some "list", some [], none, none, none,
          false⟩ := by
      simp [QueryAssistant.dispatchStep, QueryAssistant.processFieldsStep, e7, e8]
    have hd5 : (QueryAssistant.dispatchStep conn
        ⟨sid, now, now, "orderBy", some "accounts", some "list", some [], none, none, none,
          false⟩ "padrão").1 =
        ⟨sid, now, now, "limit", some "accounts", some "list", some [], none,
          some "createdon desc", none, false⟩ := by
      simp [QueryAssistant.dispatchStep, QueryAssistant.processOrderByStep, e9, e10]
    have hd6 : (QueryAssistant.dispatchStep conn
        ⟨sid, now, now, "limit", some "accounts", some "list", some [], none,
          some "createdon desc", none, false⟩ "padrão").1 =
        ⟨sid, now, now, "confirm", some "accounts", some "list", some [], none,
          some "createdon desc", some 50, false⟩ := by
      simp [QueryAssistant.dispatchStep, QueryAssistant.processLimitStep, e9, e10]
    have hd7 : (QueryAssistant.dispatchStep conn
        ⟨sid, now, now, "confirm", some "accounts", some "list", some [], none,
          some "createdon desc", some 50, false⟩ "sim").2 =
        { message := "Consulta executada com sucesso!", completed := true,
          result := some (QueryAssistant.QueryResult.records recs) } := by
      simp [QueryAssistant.dispatchStep, QueryAssistant.processConfirmStep,
        QueryAssistant.executeQuery, QueryAssistant.buildODataFilter, e11, e12, hquery]
    have hstart : (QueryAssistant.startSession store now rand).1 =
        assocSet store sid
          ⟨sid, now, now, "entity", none, none, none, none, none, none, false⟩ := by
      simp [QueryAssistant.startSession, hsid]
    rw [hstart]
    simp only [QueryAssistant.runInputs]
    rw [step _ _ "contas" (assocFind_assocSet_self _ _ _)]
    simp only [hd1]
    rw [step _ _ "1" (assocFind_assocSet_self _ _ _)]
    simp only [hd2]
    rw [step _ _ "sem filtro" (assocFind_assocSet_self _ _ _)]
    simp only [hd3]
    rw [step _ _ "todos" (assocFind_assocSet_self _ _ _)]
    simp only [hd4]
    rw [step _ _ "padrão" (assocFind_assocSet_self _ _ _)]
    simp only [hd5]
    rw [step _ _ "padrão" (assocFind_assocSet_self _ _ _)]
    simp only [hd6]
    rw [step _ _ "sim" (assocFind_assocSet_self _ _ _)]
    simp only [hd7]
    exact ⟨trivial, trivial⟩

/-- Witness for C4 at concrete fixtures: a fresh session starts at `entity`;
a rejected entity input (`wConnBad`) leaves the fixture session at `entity`
with completed:false; and the full seven-input walk under `wConnOk`
completes with a (here empty) record-set result. -/
theorem c4_witness :
    (∃ s, assocFind (QueryAssistant.startSession [] 0 "r").1
        ("query-" ++ toString (0 : Int) ++ "-" ++ "r") = some s ∧
      s.currentStep = "entity" ∧ s.completed = false) ∧
    ((QueryAssistant.processInput wConnBad wStore "a" "xyz" 5).2.completed = false ∧
      assocFind (QueryAssistant.processInput wConnBad wStore "a" "xyz" 5).1 "a" =
        some { wSession with lastActivity := 5 } ∧
      ({ wSession with lastActivity := 5 } : QueryAssistant.QuerySession).currentStep =
        "entity") ∧
    ((QueryAssistant.runInputs wConnOk ("query-" ++ toString (0 : Int) ++ "-" ++ "r") 0
        (QueryAssistant.startSession [] 0 "r").1
        ["contas", "1", "sem filtro", "todos", "padrão", "padrão", "sim"]).2.completed =
        true ∧
      (QueryAssistant.runInputs wConnOk ("query-" ++ toString (0 : Int) ++ "-" ++ "r") 0
        (QueryAssistant.startSession [] 0 "r").1
        ["contas", "1", "sem filtro", "todos", "padrão", "padrão", "sim"]).2.result =
        some (QueryAssistant.QueryResult.records [])) := by
  refine ⟨c4_assistant_fsm.1 [] 0 "r", ?_, ?_⟩
  · exact c4_assistant_fsm.2.1 wConnBad wStore "a" wSession "xyz" 5 (by decide) rfl rfl
  · exact c4_assistant_fsm.2.2 wConnOk [] 0 "r" [] rfl rfl

/-! ## Claim C7 -/

theorem scanWordsAux_fuel_irrelevant :
    ∀ (f1 f2 : Nat) (words : List String) (st : NLQuery.NLParseState),
      words.length ≤ f1 → words.length ≤ f2 →
      NLQuery.scanWordsAux f1 words st = NLQuery.scanWordsAux f2 words st := by
  intro f1
  induction f1 with
  | zero =>
    intro f2 words st h1 h2
    have hw : words = [] := List.length_eq_zero.mp (Nat.le_zero.mp h1)
    subst hw
    cases f2 <;> rfl
  | succ g1 ih =>
    intro f2 words st h1 h2
    cases words with
    | nil => cases f2 <;> rfl
    | cons w rest =>
      cases f2 with
      | zero => simp at h2
      | succ g2 =>
        simp only [List.length_cons] at h1 h2
        simp only [NLQuery.scanWordsAux]
        repeat' split
        all_goals
          first
          | rfl
          | (apply ih <;> (try simp only [List.length_drop]) <;> omega)

/-- Claim C7: whenever the token scan reaches a limit keyword (`top`,
`limite`, `limitar`, `limitado`, `maximo`, `max`) immediately followed by a
token that `parseInt`s to a positive integer, it sets `limit` to that
integer and consumes both tokens (the scan continues after them, so neither
can participate in a filter triple); and concretely
`parse("listar casos top 5")` yields entity `incidents`, action `list`,
limit 5 and no filters. -/
theorem c7_nl_limit_rule :
    (∀ (st : NLQuery.NLParseState) (w next : String) (rest : List String) (n : Int),
      (NLQuery.limitKeywords.contains w) = true →
      QueryAssistant.jsParseInt next = some n → n > 0 →
      NLQuery.scanWords (w :: next :: rest) st =
        NLQuery.scanWords rest { st with limit := some n }) ∧
    NLQuery.parseQuery (NLQuery.normalizeText "listar casos top 5") =
      { entity := some "incidents", action := some "list", filters := [],
        fields := none, limit := some 5 } := by
  constructor
  · intro st w next rest n hw hp hn
    have key : ∀ w2, assocFind NLQuery.actionMappings w2 = none →
        assocFind NLQuery.entityMappings w2 = none →
        (NLQuery.limitKeywords.contains w2) = true →
        NLQuery.scanWords (w2 :: next :: rest) st =
          NLQuery.scanWords rest { st with limit := some n } := by
      intro w2 ha he hcont
      have hmem : w2 ∈ NLQuery.limitKeywords := by simpa using hcont
      have step1 : NLQuery.scanWordsAux (rest.length + 1 + 1) (w2 :: next :: rest) st =
          NLQuery.scanWordsAux (rest.length + 1) rest { st with limit := some n } := by
        simp [NLQuery.scanWordsAux, ha, he, hmem, NLQuery.limitCandidate, hp, hn]
      calc NLQuery.scanWords (w2 :: next :: rest) st
          = NLQuery.scanWordsAux (rest.length + 1 + 1) (w2 :: next :: rest) st := by
            simp [NLQuery.scanWords]
        _ = NLQuery.scanWordsAux (rest.length + 1) rest { st with limit := some n } := step1
        _ = NLQuery.scanWordsAux rest.length rest { st with limit := some n } :=
            scanWordsAux_fuel_irrelevant _ _ _ _ (by omega) (le_refl _)
        _ = NLQuery.scanWords rest { st with limit := some n } := by
            simp [NLQuery.scanWords]
    have hw6 : w = "top" ∨ w = "limite" ∨ w = "limitar" ∨ w = "limitado" ∨
        w = "maximo" ∨ w = "max" := by
      simpa [NLQuery.limitKeywords] using hw
    rcases hw6 with rfl | rfl | rfl | rfl | rfl | rfl <;>
      exact key _ (by decide) (by decide) (by decide)
  · decide

/-- Witness for C7: the concrete pair `top 5` fires the limit rule. -/
theorem c7_witness :
    (NLQuery.limitKeywords.contains "top") = true ∧
    QueryAssistant.jsParseInt "5" = some 5 ∧ (5 : Int) > 0 ∧
    NLQuery.scanWords ["top", "5"] {} = NLQuery.scanWords [] { limit := some 5 } := by
  exact ⟨by decide, by decide, by decide,
    c7_nl_limit_rule.1 {} "top" "5" [] 5 (by decide) (by decide) (by decide)⟩

/-! ## Claim C10 -/

/-- Claim C10: a natural-language query whose detected action is `create`,
`update` or `delete` (and whose entity was recognized, so the action
dispatch is reached) is refused: `processQuery` returns success:false with
the matching "not supported via natural language" message, and the recorded
connector-call trace is empty — `queryEntities` is the only connector
operation `NLQueryService` can reach, so no CRM record is created, updated
or deleted. -/
theorem c10_nl_mutations_refused (conn : NLQuery.NLConnector) (q : String)
    (ent act : String)
    (he : (NLQuery.parseQuery (NLQuery.normalizeText q)).entity = some ent)
    (ha : (NLQuery.parseQuery (NLQuery.normalizeText q)).action = some act)
    (hact : act = "create" ∨ act = "update" ∨ act = "delete") :
    (NLQuery.processQuery conn q).2 = [] ∧
    (NLQuery.processQuery conn q).1.success = false ∧
    (act = "create" → (NLQuery.processQuery conn q).1.message =
      some "A criação de registros via consulta em linguagem natural ainda não é suportada. Use a ferramenta específica para criar registros.") ∧
    (act = "update" → (NLQuery.processQuery conn q).1.message =
      some "A atualização de registros via consulta em linguagem natural ainda não é suportada. Use a ferramenta específica para atualizar registros.") ∧
    (act = "delete" → (NLQuery.processQuery conn q).1.message =
      some "A exclusão de registros via consulta em linguagem natural ainda não é suportada. Use a ferramenta específica para excluir registros.") := by
  rcases hact with rfl | rfl | rfl <;>
    refine ⟨?_, ?_, ?_, ?_, ?_⟩ <;>
      simp [NLQuery.processQuery, he, ha]

/-- Witness for C10: the concrete query `criar conta` parses to action
`create` / entity `accounts`, is refused, and records no connector call. -/
theorem c10_witness :
    (NLQuery.parseQuery (NLQuery.normalizeText "criar conta")).entity = some "accounts" ∧
    (NLQuery.parseQuery (NLQuery.normalizeText "criar conta")).action = some "create" ∧
    (NLQuery.processQuery wNLConnOk "criar conta").2 = [] ∧
    (NLQuery.processQuery wNLConnOk "criar conta").1.success = false := by
  have h := c10_nl_mutations_refused wNLConnOk "criar conta" "accounts" "create"
    (by decide) (by decide) (Or.inl rfl)
  exact ⟨by decide, by decide, h.1, h.2.1⟩

/-! ## Claim C8 -/

/-- Counterexample to C8 as stated: the NL service's `buildODataFilter`
(one of the two builders the claim covers) has no `id` special case — an
`id` entry is rendered like any other field, `id eq '123'`, not
`accountid eq 123`. -/
theorem c8_counterexample :
    NLQuery.buildODataFilter "accounts"
      [("id", QueryAssistant.FilterVal.cond "eq" "123")] = "id eq '123'" ∧
    NLQuery.buildODataFilter "accounts"
      [("id", QueryAssistant.FilterVal.cond "eq" "123")] ≠ "accountid eq 123" := by
  exact ⟨by decide, by decide⟩

/-- Claim C8 as amended: both builders render `eq/ne/gt/lt/ge/le` entries as
`<field> <op> '<value>'` and `contains/startswith/endswith` entries as
`<op>(<field>, '<value>')`, join clauses with ` and `, and silently drop
entries with any other operator; but only the assistant's builder
special-cases an `id` key to `<entity-singular>id eq <value>` (unquoted) —
the NL builder instead passes `id` through its per-entity field-synonym
mapping and renders it like any other field. -/
theorem c8_amended_filter_builders :
    (∀ e f v op, (["eq", "ne", "gt", "lt", "ge", "le"].contains op) = true → f ≠ "id" →
      QueryAssistant.buildODataFilter e [(f, QueryAssistant.FilterVal.cond op v)] =
        f ++ " " ++ op ++ " '" ++ v ++ "'") ∧
    (∀ e f v op, (["contains", "startswith", "endswith"].contains op) = true → f ≠ "id" →
      QueryAssistant.buildODataFilter e [(f, QueryAssistant.FilterVal.cond op v)] =
        op ++ "(" ++ f ++ ", '" ++ v ++ "')") ∧
    (∀ e v, QueryAssistant.buildODataFilter e [("id", QueryAssistant.FilterVal.raw v)] =
      (if e.data.getLast? = some 's' then String.mk e.data.dropLast else e) ++
        "id" ++ " eq " ++ v) ∧
    (∀ e f1 v1 f2 v2, f1 ≠ "id" → f2 ≠ "id" →
      QueryAssistant.buildODataFilter e
        [(f1, QueryAssistant.FilterVal.cond "eq" v1),
         (f2, QueryAssistant.FilterVal.cond "contains" v2)] =
        (f1 ++ " eq '" ++ v1 ++ "'") ++ " and " ++
          ("contains(" ++ f2 ++ ", '" ++ v2 ++ "')")) ∧
    (∀ e f1 v1 fbad opbad vbad, f1 ≠ "id" → fbad ≠ "id" →
      (["eq", "ne", "gt", "lt", "ge", "le", "contains", "startswith",
        "endswith"].contains opbad) = false →
      QueryAssistant.buildODataFilter e
        [(fbad, QueryAssistant.FilterVal.cond opbad vbad),
         (f1, QueryAssistant.FilterVal.cond "eq" v1)] =
        f1 ++ " eq '" ++ v1 ++ "'") ∧
    (∀ e f v op, (["eq", "ne", "gt", "lt", "ge", "le"].contains op) = true →
      NLQuery.buildODataFilter e [(f, QueryAssistant.FilterVal.cond op v)] =
        NLQuery.mapFieldName e f ++ " " ++ op ++ " '" ++ v ++ "'") ∧
    (∀ e f v op, (["contains", "startswith", "endswith"].contains op) = true →
      NLQuery.buildODataFilter e [(f, QueryAssistant.FilterVal.cond op v)] =
        op ++ "(" ++ NLQuery.mapFieldName e f ++ ", '" ++ v ++ "')") ∧
    (∀ e fbad opbad vbad,
      (["eq", "ne", "gt", "lt", "ge", "le", "contains", "startswith",
        "endswith"].contains opbad) = false →
      NLQuery.buildODataFilter e [(fbad, QueryAssistant.FilterVal.cond opbad vbad)] = "") ∧
    (∀ e f1 v1 f2 v2,
      NLQuery.buildODataFilter e
        [(f1, QueryAssistant.FilterVal.cond "eq" v1),
         (f2, QueryAssistant.FilterVal.cond "contains" v2)] =
        (NLQuery.mapFieldName e f1 ++ " eq '" ++ v1 ++ "'") ++ " and " ++
          ("contains(" ++ NLQuery.mapFieldName e f2 ++ ", '" ++ v2 ++ "')")) ∧
    (∀ e f1 v1 fbad opbad vbad,
      (["eq", "ne", "gt", "lt", "ge", "le", "contains", "startswith",
        "endswith"].contains opbad) = false →
      NLQuery.buildODataFilter e
        [(fbad, QueryAssistant.FilterVal.cond opbad vbad),
         (f1, QueryAssistant.FilterVal.cond "eq" v1)] =
        NLQuery.mapFieldName e f1 ++ " eq '" ++ v1 ++ "'") := by
  refine ⟨?_, ?_, ?_, ?_, ?_, ?_, ?_, ?_, ?_, ?_⟩
  · intro e f v op hop hf
    have h6 : op = "eq" ∨ op = "ne" ∨ op = "gt" ∨ op = "lt" ∨ op = "ge" ∨ op = "le" := by
      simpa using hop
    rcases h6 with rfl | rfl | rfl | rfl | rfl | rfl <;>
      simp [QueryAssistant.buildODataFilter, QueryAssistant.filterValCond, hf,
        String.intercalate, String.intercalate.go]
  · intro e f v op hop hf
    have h3 : op = "contains" ∨ op = "startswith" ∨ op = "endswith" := by simpa using hop
    rcases h3 with rfl | rfl | rfl <;>
      simp [QueryAssistant.buildODataFilter, QueryAssistant.filterValCond, hf,
        String.intercalate, String.intercalate.go]
  · intro e v
    simp [QueryAssistant.buildODataFilter, QueryAssistant.filterValToString,
      String.intercalate, String.intercalate.go]
  · intro e f1 v1 f2 v2 h1 h2
    simp [QueryAssistant.buildODataFilter, QueryAssistant.filterValCond, h1, h2,
      String.intercalate, String.intercalate.go]
    apply String.ext
    simp [String.data_append]
  · intro e f1 v1 fbad opbad vbad h1 h2 hbad
    have hne : opbad ≠ "eq" ∧ opbad ≠ "ne" ∧ opbad ≠ "gt" ∧ opbad ≠ "lt" ∧
        opbad ≠ "ge" ∧ opbad ≠ "le" ∧ opbad ≠ "contains" ∧ opbad ≠ "startswith" ∧
        opbad ≠ "endswith" := by
      simpa [not_or] using hbad
    obtain ⟨n1, n2, n3, n4, n5, n6, n7, n8, n9⟩ := hne
    simp [QueryAssistant.buildODataFilter, QueryAssistant.filterValCond, h1, h2,
      n1, n2, n3, n4, n5, n6, n7, n8, n9, String.intercalate, String.intercalate.go]
    apply String.ext
    simp [String.data_append]
  · intro e f v op hop
    have h6 : op = "eq" ∨ op = "ne" ∨ op = "gt" ∨ op = "lt" ∨ op = "ge" ∨ op = "le" := by
      simpa using hop
    rcases h6 with rfl | rfl | rfl | rfl | rfl | rfl <;>
      simp [NLQuery.buildODataFilter, QueryAssistant.filterValCond,
        String.intercalate, String.intercalate.go]
  · intro e f v op hop
    have h3 : op = "contains" ∨ op = "startswith" ∨ op = "endswith" := by simpa using hop
    rcases h3 with rfl | rfl | rfl <;>
      simp [NLQuery.buildODataFilter, QueryAssistant.filterValCond,
        String.intercalate, String.intercalate.go]
  · intro e fbad opbad vbad hbad
    have hne : opbad ≠ "eq" ∧ opbad ≠ "ne" ∧ opbad ≠ "gt" ∧ opbad ≠ "lt" ∧
        opbad ≠ "ge" ∧ opbad ≠ "le" ∧ opbad ≠ "contains" ∧ opbad ≠ "startswith" ∧
        opbad ≠ "endswith" := by
      simpa [not_or] using hbad
    obtain ⟨n1, n2, n3, n4, n5, n6, n7, n8, n9⟩ := hne
    simp [NLQuery.buildODataFilter, QueryAssistant.filterValCond,
      n1, n2, n3, n4, n5, n6, n7, n8, n9, String.intercalate, String.intercalate.go]
  · intro e f1 v1 f2 v2
    simp [NLQuery.buildODataFilter, QueryAssistant.filterValCond,
      String.intercalate, String.intercalate.go]
    apply String.ext
    simp [String.data_append]
  · intro e f1 v1 fbad opbad vbad hbad
    have hne : opbad ≠ "eq" ∧ opbad ≠ "ne" ∧ opbad ≠ "gt" ∧ opbad ≠ "lt" ∧
        opbad ≠ "ge" ∧ opbad ≠ "le" ∧ opbad ≠ "contains" ∧ opbad ≠ "startswith" ∧
        opbad ≠ "endswith" := by
      simpa [not_or] using hbad
    obtain ⟨n1, n2, n3, n4, n5, n6, n7, n8, n9⟩ := hne
    simp [NLQuery.buildODataFilter, QueryAssistant.filterValCond,
      n1, n2, n3, n4, n5, n6, n7, n8, n9, String.intercalate, String.intercalate.go]
    apply String.ext
    simp [String.data_append]

/-- Witness for C8: concrete renderings from both builders — a `ge` clause,
the assistant's unquoted `id` special case (`accountid eq 123`), an ` and `
join, a dropped `between` entry, and the NL builder's synonym-mapped
rendering (`nome` → `name` for `accounts`). -/
theorem c8_witness :
    QueryAssistant.buildODataFilter "accounts"
      [("revenue", QueryAssistant.FilterVal.cond "ge" "100")] = "revenue ge '100'" ∧
    QueryAssistant.buildODataFilter "accounts"
      [("id", QueryAssistant.FilterVal.raw "123")] = "accountid eq 123" ∧
    QueryAssistant.buildODataFilter "accounts"
      [("a", QueryAssistant.FilterVal.cond "eq" "1"),
       ("b", QueryAssistant.FilterVal.cond "contains" "2")] = "a eq '1' and contains(b, '2')" ∧
    QueryAssistant.buildODataFilter "accounts"
      [("x", QueryAssistant.FilterVal.cond "between" "9"),
       ("a", QueryAssistant.FilterVal.cond "eq" "1")] = "a eq '1'" ∧
    NLQuery.buildODataFilter "accounts"
      [("nome", QueryAssistant.FilterVal.cond "ge" "100")] = "name ge '100'" ∧
    NLQuery.buildODataFilter "accounts"
      [("nome", QueryAssistant.FilterVal.cond "eq" "x"),
       ("cidade", QueryAssistant.FilterVal.cond "contains" "SP")] =
      "name eq 'x' and contains(address1_city, 'SP')" ∧
    NLQuery.buildODataFilter "accounts"
      [("x", QueryAssistant.FilterVal.cond "between" "9"),
       ("nome", QueryAssistant.FilterVal.cond "eq" "1")] = "name eq '1'" := by
  have h1 := c8_amended_filter_builders.1 "accounts" "revenue" "100" "ge"
    (by decide) (by decide)
  have h2 := c8_amended_filter_builders.2.2.1 "accounts" "123"
  have h3 := c8_amended_filter_builders.2.2.2.1 "accounts" "a" "1" "b" "2"
    (by decide) (by decide)
  have h4 := c8_amended_filter_builders.2.2.2.2.1 "accounts" "a" "1" "x" "between" "9"
    (by decide) (by decide) (by decide)
  have h5 := c8_amended_filter_builders.2.2.2.2.2.1 "accounts" "nome" "100" "ge" (by decide)
  have h6 := c8_amended_filter_builders.2.2.2.2.2.2.2.2.1 "accounts" "nome" "x" "cidade" "SP"
  have h7 := c8_amended_filter_builders.2.2.2.2.2.2.2.2.2 "accounts" "nome" "1" "x"
    "between" "9" (by decide)
  refine ⟨?_, ?_, ?_, ?_, ?_, ?_, ?_⟩
  · rw [h1]; decide
  · rw [h2]; decide
  · rw [h3]; decide
  · rw [h4]; decide
  · rw [h5]; decide
  · rw [h6]; decide
  · rw [h7]; decide

/-! ## Claim C2 -/

/-- Counterexample to C2 as stated: the `=`, `>` and `<` regexes precede the
`>=` / `<=` regexes in the ordered bank, so `campo >= 10` is resolved by the
`>` pattern as operator `gt` with value `= 10` — not `ge` with value `10`
(and symmetrically `<=` yields `lt` with `= 10`). -/
theorem c2_counterexample :
    QueryAssistant.parseFilterInput "campo >= 10" =
      some [("campo", QueryAssistant.FilterVal.cond "gt" "= 10")] ∧
    QueryAssistant.parseFilterInput "campo >= 10" ≠
      some [("campo", QueryAssistant.FilterVal.cond "ge" "10")] ∧
    QueryAssistant.parseFilterInput "campo <= 10" =
      some [("campo", QueryAssistant.FilterVal.cond "lt" "= 10")] := by
  exact ⟨by decide, by decide, by decide⟩

theorem dropWhile_eq_self_of_head (p : Char → Bool) (l : List Char)
    (h : l.head?.all (fun c => !p c) = true) : l.dropWhile p = l := by
  cases l with
  | nil => rfl
  | cons c cs =>
    simp only [List.head?_cons, Option.all_some, Bool.not_eq_true'] at h
    simp [List.dropWhile_cons, h]

theorem jsTrimList_eq_self (l : List Char)
    (h1 : l.head?.all (fun c => !isJsSpace c) = true)
    (h2 : l.getLast?.all (fun c => !isJsSpace c) = true) : jsTrimList l = l := by
  unfold jsTrimList
  rw [dropWhile_eq_self_of_head _ _ h1]
  rw [dropWhile_eq_self_of_head _ _ (by simpa [List.head?_reverse] using h2)]
  exact List.reverse_reverse l

theorem jsTrim_eq_self (s : String)
    (h1 : s.data.head?.all (fun c => !isJsSpace c) = true)
    (h2 : s.data.getLast?.all (fun c => !isJsSpace c) = true) : jsTrim s = s := by
  unfold jsTrim
  rw [jsTrimList_eq_self s.data h1 h2]

theorem stripQuotes_eq_self_of_head (v : String)
    (h : v.data.head?.all (fun c => c ≠ '"' ∧ c ≠ '\'') = true) :
    QueryAssistant.stripQuotes v = v := by
  unfold QueryAssistant.stripQuotes
  cases hd : v.data with
  | nil => simp [hd]
  | cons c cs =>
    rw [hd] at h
    simp only [List.head?_cons, Option.all_some, decide_eq_true_eq] at h
    simp [hd, h.1, h.2]

theorem runLen_append (a : RAtom) (l1 l2 : List Char)
    (h1 : l1.all (atomMatch a) = true)
    (h2 : l2.head?.all (fun c => !atomMatch a c) = true) :
    runLen a (l1 ++ l2) = l1.length := by
  induction l1 with
  | nil =>
    cases l2 with
    | nil => rfl
    | cons c cs =>
      simp only [List.head?_cons, Option.all_some, Bool.not_eq_true'] at h2
      simp [runLen, h2]
  | cons c cs ih =>
    simp only [List.all_cons, Bool.and_eq_true] at h1
    simp [runLen, h1.1, ih h1.2]

theorem runLen_all (a : RAtom) (l : List Char) (h : l.all (atomMatch a) = true) :
    runLen a l = l.length := by
  have := runLen_append a l [] h (by simp)
  simpa using this

theorem matchItems_ch_cons (a : RAtom) (items : List RItem) (c : Char) (cs : List Char)
    (h : atomMatch a c = true) :
    matchItems (RItem.ch a :: items) (c :: cs) = matchItems items cs := by
  simp [matchItems, h]

theorem matchItems_capPlus_append (a : RAtom) (items : List RItem)
    (f rest : List Char) (caps : List String)
    (hne : f ≠ []) (hall : f.all (atomMatch a) = true)
    (hstop : rest.head?.all (fun c => !atomMatch a c) = true)
    (hm : matchItems items rest = some caps) :
    matchItems (RItem.capPlus a :: items) (f ++ rest) = some (String.mk f :: caps) := by
  obtain ⟨c, f2, rfl⟩ : ∃ c f2, f = c :: f2 := by
    cases f with
    | nil => exact absurd rfl hne
    | cons c f2 => exact ⟨c, f2, rfl⟩
  have hr : runLen a ((c :: f2) ++ rest) = f2.length + 1 := by
    simpa using runLen_append a (c :: f2) rest hall hstop
  simp only [matchItems, hr, List.range_succ_eq_map, List.findSome?_cons]
  have hdrop : ((c :: f2) ++ rest).drop (f2.length + 1 - 0) = rest := by
    simpa using List.drop_left (c :: f2) rest
  have htake : ((c :: f2) ++ rest).take (f2.length + 1 - 0) = c :: f2 := by
    simpa using List.take_left (c :: f2) rest
  simp [hdrop, htake, hm]

theorem matchItems_star_append (a : RAtom) (items : List RItem)
    (sp rest : List Char) (caps : List String)
    (hall : sp.all (atomMatch a) = true)
    (hstop : rest.head?.all (fun c => !atomMatch a c) = true)
    (hm : matchItems items rest = some caps) :
    matchItems (RItem.star a :: items) (sp ++ rest) = some caps := by
  have hr : runLen a (sp ++ rest) = sp.length := runLen_append a sp rest hall hstop
  simp only [matchItems, hr, List.range_succ_eq_map, List.findSome?_cons]
  have hdrop : (sp ++ rest).drop (sp.length - 0) = rest := by
    simpa using List.drop_left sp rest
  simp [hdrop, hm]

theorem matchItems_capPlus_all (a : RAtom) (s : List Char)
    (hne : s ≠ []) (hall : s.all (atomMatch a) = true) :
    matchItems [RItem.capPlus a] s = some [String.mk s] := by
  obtain ⟨c, s2, rfl⟩ : ∃ c s2, s = c :: s2 := by
    cases s with
    | nil => exact absurd rfl hne
    | cons c s2 => exact ⟨c, s2, rfl⟩
  have hr : runLen a (c :: s2) = s2.length + 1 := by
    simpa using runLen_all a (c :: s2) hall
  simp only [matchItems, hr, List.range_succ_eq_map, List.findSome?_cons]
  simp [List.drop_length, List.take_length, matchItems]

theorem regexSearch_of_matchItems (p : List RItem) (s : List Char) (caps : List String)
    (h : matchItems p s = some caps) : regexSearch p s = some caps := by
  cases s with
  | nil => simpa [regexSearch] using h
  | cons c cs => simp [regexSearch, h]

theorem findSome?_append_none {α β : Type} (l1 l2 : List α) (f : α → Option β)
    (h : ∀ x ∈ l1, f x = none) : (l1 ++ l2).findSome? f = l2.findSome? f := by
  induction l1 with
  | nil => simp
  | cons x xs ih =>
    simp only [List.cons_append, List.findSome?_cons, h x (List.mem_cons_self x xs)]
    exact ih (fun y hy => h y (List.mem_cons_of_mem x hy))

theorem word_char_not_space (c : Char) (h : atomMatch RAtom.word c = true) :
    isJsSpace c = false := by
  cases hs : isJsSpace c with
  | false => rfl
  | true =>
    exfalso
    have hs2 : c = ' ' ∨ c = '\t' ∨ c = '\n' ∨ c = '\r' ∨ c = '\x0b' ∨ c = '\x0c' := by
      simpa [isJsSpace] using hs
    rcases hs2 with rfl | rfl | rfl | rfl | rfl | rfl <;> simp [atomMatch, isJsWord] at h

theorem matchItems_symbol_single (c1 : Char) (field value : List Char)
    (hf : field ≠ []) (hfa : field.all (atomMatch RAtom.word) = true)
    (hc1s : isJsSpace c1 = false)
    (hvh : value.head?.all (fun c => !isJsSpace c) = true)
    (hv : value ≠ []) (hva : value.all (atomMatch RAtom.dot) = true) :
    matchItems [RItem.capPlus RAtom.word, RItem.star RAtom.space, RItem.ch (RAtom.lit c1),
        RItem.star RAtom.space, RItem.capPlus RAtom.dot]
      (field ++ (' ' :: c1 :: '=' :: ' ' :: value)) =
      some [String.mk field, String.mk ('=' :: ' ' :: value)] := by
  have h5 : matchItems [RItem.capPlus RAtom.dot] ('=' :: ' ' :: value) =
      some [String.mk ('=' :: ' ' :: value)] := by
    apply matchItems_capPlus_all
    · simp
    · simp [List.all_cons, hva, atomMatch]
  have h4 : matchItems [RItem.star RAtom.space, RItem.capPlus RAtom.dot]
      ('=' :: ' ' :: value) = some [String.mk ('=' :: ' ' :: value)] := by
    have := matchItems_star_append RAtom.space [RItem.capPlus RAtom.dot] []
      ('=' :: ' ' :: value) [String.mk ('=' :: ' ' :: value)]
      (by simp) (by simp [atomMatch, isJsSpace]) h5
    simpa using this
  have h3 : matchItems [RItem.ch (RAtom.lit c1), RItem.star RAtom.space,
      RItem.capPlus RAtom.dot] (c1 :: '=' :: ' ' :: value) =
      some [String.mk ('=' :: ' ' :: value)] := by
    rw [matchItems_ch_cons _ _ _ _ (by simp [atomMatch])]
    exact h4
  have h2 : matchItems [RItem.star RAtom.space, RItem.ch (RAtom.lit c1),
      RItem.star RAtom.space, RItem.capPlus RAtom.dot]
      (' ' :: c1 :: '=' :: ' ' :: value) = some [String.mk ('=' :: ' ' :: value)] := by
    have := matchItems_star_append RAtom.space
      [RItem.ch (RAtom.lit c1), RItem.star RAtom.space, RItem.capPlus RAtom.dot]
      [' '] (c1 :: '=' :: ' ' :: value) [String.mk ('=' :: ' ' :: value)]
      (by simp [atomMatch, isJsSpace]) (by simp [atomMatch, hc1s]) h3
    simpa using this
  exact matchItems_capPlus_append RAtom.word _ field (' ' :: c1 :: '=' :: ' ' :: value) _
    hf hfa (by simp [atomMatch, isJsWord]) h2

theorem matchItems_symbol_double (c1 c2 : Char) (field value : List Char)
    (hf : field ≠ []) (hfa : field.all (atomMatch RAtom.word) = true)
    (hc1s : isJsSpace c1 = false)
    (hvh : value.head?.all (fun c => !isJsSpace c) = true)
    (hv : value ≠ []) (hva : value.all (atomMatch RAtom.dot) = true) :
    matchItems [RItem.capPlus RAtom.word, RItem.star RAtom.space, RItem.ch (RAtom.lit c1),
        RItem.ch (RAtom.lit c2), RItem.star RAtom.space, RItem.capPlus RAtom.dot]
      (field ++ (' ' :: c1 :: c2 :: ' ' :: value)) =
      some [String.mk field, String.mk value] := by
  have h5 : matchItems [RItem.capPlus RAtom.dot] value = some [String.mk value] :=
    matchItems_capPlus_all RAtom.dot value hv hva
  have h4 : matchItems [RItem.star RAtom.space, RItem.capPlus RAtom.dot]
      (' ' :: value) = some [String.mk value] := by
    have := matchItems_star_append RAtom.space [RItem.capPlus RAtom.dot]
      [' '] value [String.mk value] (by simp [atomMatch, isJsSpace])
      (by simpa [atomMatch] using hvh) h5
    simpa using this
  have h3 : matchItems [RItem.ch (RAtom.lit c2), RItem.star RAtom.space,
      RItem.capPlus RAtom.dot] (c2 :: ' ' :: value) = some [String.mk value] := by
    rw [matchItems_ch_cons _ _ _ _ (by simp [atomMatch])]
    exact h4
  have h3b : matchItems [RItem.ch (RAtom.lit c1), RItem.ch (RAtom.lit c2),
      RItem.star RAtom.space, RItem.capPlus RAtom.dot] (c1 :: c2 :: ' ' :: value) =
      some [String.mk value] := by
    rw [matchItems_ch_cons _ _ _ _ (by simp [atomMatch])]
    exact h3
  have h2 : matchItems [RItem.star RAtom.space, RItem.ch (RAtom.lit c1),
      RItem.ch (RAtom.lit c2), RItem.star RAtom.space, RItem.capPlus RAtom.dot]
      (' ' :: c1 :: c2 :: ' ' :: value) = some [String.mk value] := by
    have := matchItems_star_append RAtom.space
      [RItem.ch (RAtom.lit c1), RItem.ch (RAtom.lit c2), RItem.star RAtom.space,
       RItem.capPlus RAtom.dot]
      [' '] (c1 :: c2 :: ' ' :: value) [String.mk value]
      (by simp [atomMatch, isJsSpace]) (by simp [atomMatch, hc1s]) h3b
    simpa using this
  exact matchItems_capPlus_append RAtom.word _ field (' ' :: c1 :: c2 :: ' ' :: value) _
    hf hfa (by simp [atomMatch, isJsWord]) h2

theorem parseFilterInput_resolves (k : Nat) (hk : k < QueryAssistant.filterPatterns.length)
    (s field value2 : String)
    (hnone : ((QueryAssistant.filterPatterns.take k).all
      (fun p => (regexSearch p.1 s.data).isNone)) = true)
    (hmatch : regexSearch (QueryAssistant.filterPatterns.get ⟨k, hk⟩).1 s.data =
      some [field, value2]) :
    QueryAssistant.parseFilterInput s =
      some [(jsTrim field, QueryAssistant.FilterVal.cond
        (QueryAssistant.filterPatterns.get ⟨k, hk⟩).2
        (QueryAssistant.stripQuotes (jsTrim value2)))] := by
  unfold QueryAssistant.parseFilterInput
  conv_lhs => rw [← List.take_append_drop k QueryAssistant.filterPatterns]
  rw [findSome?_append_none]
  · rw [List.drop_eq_get_cons hk, List.findSome?_cons, hmatch]
  · intro x hx
    have hx2 := (List.all_eq_true.mp hnone) x hx
    simp only [Option.isNone_iff_eq_none] at hx2
    simp [hx2]

theorem mem_of_getLast?_eq {α : Type} (l : List α) (a : α) (h : l.getLast? = some a) :
    a ∈ l := by
  rcases List.mem_getLast?_eq_getLast (by simpa using h) with ⟨hne, rfl⟩
  exact List.getLast_mem hne

theorem jsTrim_of_word_chars (f : String) (h1 : f ≠ "")
    (h2 : f.data.all (atomMatch RAtom.word) = true) : jsTrim f = f := by
  apply jsTrim_eq_self
  · cases hd : f.data with
    | nil => simp
    | cons c cs =>
      have hc : atomMatch RAtom.word c = true :=
        (List.all_eq_true.mp h2) c (by rw [hd]; exact List.mem_cons_self c cs)
      simp [word_char_not_space c hc]
  · cases hl : f.data.getLast? with
    | none => simp
    | some c =>
      have hc : atomMatch RAtom.word c = true :=
        (List.all_eq_true.mp h2) c (mem_of_getLast?_eq _ _ hl)
      simp [word_char_not_space c hc]

theorem string_data_ne_nil (v : String) (hv : v ≠ "") : v.data ≠ [] := by
  intro h
  exact hv (String.ext (by simpa using h))

/-- Claim C2 as amended: in the ordered regex bank, `field != value` does
resolve to operator `ne` with the value text (quotes stripped); but
`field >= value` is captured by the earlier `>` pattern as operator `gt`
with value `= value`, and `field <= value` by the earlier `<` pattern as
operator `lt` with value `= value` — the dedicated `>=` / `<=` patterns are
shadowed by first-match order.  (`field` ranges over non-empty `\w` words;
`value` over non-empty line-free texts without surrounding whitespace; the
`take k` hypotheses say no earlier pattern of the bank matches the input,
which pins down the first match.) -/
theorem c2_amended_filter_phrases :
    (∀ field value : String,
      field ≠ "" → field.data.all (atomMatch RAtom.word) = true →
      value ≠ "" → value.data.all (atomMatch RAtom.dot) = true →
      value.data.head?.all (fun c => !isJsSpace c) = true →
      value.data.getLast?.all (fun c => !isJsSpace c) = true →
      ((QueryAssistant.filterPatterns.take 14).all
        (fun p => (regexSearch p.1 (field ++ " != " ++ value).data).isNone)) = true →
      QueryAssistant.parseFilterInput (field ++ " != " ++ value) =
        some [(field, QueryAssistant.FilterVal.cond "ne"
          (QueryAssistant.stripQuotes value))]) ∧
    (∀ field value : String,
      field ≠ "" → field.data.all (atomMatch RAtom.word) = true →
      value ≠ "" → value.data.all (atomMatch RAtom.dot) = true →
      value.data.head?.all (fun c => !isJsSpace c) = true →
      value.data.getLast?.all (fun c => !isJsSpace c) = true →
      ((QueryAssistant.filterPatterns.take 6).all
        (fun p => (regexSearch p.1 (field ++ " >= " ++ value).data).isNone)) = true →
      QueryAssistant.parseFilterInput (field ++ " >= " ++ value) =
        some [(field, QueryAssistant.FilterVal.cond "gt" ("= " ++ value))]) ∧
    (∀ field value : String,
      field ≠ "" → field.data.all (atomMatch RAtom.word) = true →
      value ≠ "" → value.data.all (atomMatch RAtom.dot) = true →
      value.data.head?.all (fun c => !isJsSpace c) = true →
      value.data.getLast?.all (fun c => !isJsSpace c) = true →
      ((QueryAssistant.filterPatterns.take 8).all
        (fun p => (regexSearch p.1 (field ++ " <= " ++ value).data).isNone)) = true →
      QueryAssistant.parseFilterInput (field ++ " <= " ++ value) =
        some [(field, QueryAssistant.FilterVal.cond "lt" ("= " ++ value))]) := by
  refine ⟨?_, ?_, ?_⟩
  · intro field value hf1 hf2 hv1 hv2 hvh hvl hnone
    have hm := matchItems_symbol_double '!' '=' field.data value.data
      (string_data_ne_nil field hf1) hf2 (by decide) hvh (string_data_ne_nil value hv1) hv2
    have hsdata : (field ++ " != " ++ value).data =
        field.data ++ (' ' :: '!' :: '=' :: ' ' :: value.data) := by
      simp [String.data_append]
    have hsearch : regexSearch (QueryAssistant.filterPatterns.get ⟨14, by decide⟩).1
        (field ++ " != " ++ value).data = some [field, value] := by
      rw [hsdata]
      exact regexSearch_of_matchItems _ _ _ hm
    have hres := parseFilterInput_resolves 14 (by decide) (field ++ " != " ++ value)
      field value hnone hsearch
    rw [hres, jsTrim_of_word_chars field hf1 hf2, jsTrim_eq_self value hvh hvl]
    rfl
  · intro field value hf1 hf2 hv1 hv2 hvh hvl hnone
    have hm := matchItems_symbol_single '>' field.data value.data
      (string_data_ne_nil field hf1) hf2 (by decide) hvh (string_data_ne_nil value hv1) hv2
    have hsdata : (field ++ " >= " ++ value).data =
        field.data ++ (' ' :: '>' :: '=' :: ' ' :: value.data) := by
      simp [String.data_append]
    have hsearch : regexSearch (QueryAssistant.filterPatterns.get ⟨6, by decide⟩).1
        (field ++ " >= " ++ value).data =
        some [field, String.mk ('=' :: ' ' :: value.data)] := by
      rw [hsdata]
      exact regexSearch_of_matchItems _ _ _ hm
    have hres := parseFilterInput_resolves 6 (by decide) (field ++ " >= " ++ value)
      field (String.mk ('=' :: ' ' :: value.data)) hnone hsearch
    have hlast : ('=' :: ' ' :: value.data).getLast? = value.data.getLast? :=
      List.getLast?_append_of_ne_nil ['=', ' '] (string_data_ne_nil value hv1)
    have htrim : jsTrim (String.mk ('=' :: ' ' :: value.data)) =
        String.mk ('=' :: ' ' :: value.data) := by
      apply jsTrim_eq_self
      · simp [isJsSpace]
      · rw [show (String.mk ('=' :: ' ' :: value.data)).data =
          '=' :: ' ' :: value.data from rfl, hlast]
        exact hvl
    have hstrip : QueryAssistant.stripQuotes (String.mk ('=' :: ' ' :: value.data)) =
        String.mk ('=' :: ' ' :: value.data) := by
      apply stripQuotes_eq_self_of_head
      simp
    have hmk : String.mk ('=' :: ' ' :: value.data) = "= " ++ value := by
      apply String.ext
      simp [String.data_append]
    rw [hres, jsTrim_of_word_chars field hf1 hf2, htrim, hstrip, hmk]
    rfl
  · intro field value hf1 hf2 hv1 hv2 hvh hvl hnone
    have hm := matchItems_symbol_single '<' field.data value.data
      (string_data_ne_nil field hf1) hf2 (by decide) hvh (string_data_ne_nil value hv1) hv2
    have hsdata : (field ++ " <= " ++ value).data =
        field.data ++ (' ' :: '<' :: '=' :: ' ' :: value.data) := by
      simp [String.data_append]
    have hsearch : regexSearch (QueryAssistant.filterPatterns.get ⟨8, by decide⟩).1
        (field ++ " <= " ++ value).data =
        some [field, String.mk ('=' :: ' ' :: value.data)] := by
      rw [hsdata]
      exact regexSearch_of_matchItems _ _ _ hm
    have hres := parseFilterInput_resolves 8 (by decide) (field ++ " <= " ++ value)
      field (String.mk ('=' :: ' ' :: value.data)) hnone hsearch
    have hlast : ('=' :: ' ' :: value.data).getLast? = value.data.getLast? :=
      List.getLast?_append_of_ne_nil ['=', ' '] (string_data_ne_nil value hv1)
    have htrim : jsTrim (String.mk ('=' :: ' ' :: value.data)) =
        String.mk ('=' :: ' ' :: value.data) := by
      apply jsTrim_eq_self
      · simp [isJsSpace]
      · rw [show (String.mk ('=' :: ' ' :: value.data)).data =
          '=' :: ' ' :: value.data from rfl, hlast]
        exact hvl
    have hstrip : QueryAssistant.stripQuotes (String.mk ('=' :: ' ' :: value.data)) =
        String.mk ('=' :: ' ' :: value.data) := by
      apply stripQuotes_eq_self_of_head
      simp
    have hmk : String.mk ('=' :: ' ' :: value.data) = "= " ++ value := by
      apply String.ext
      simp [String.data_append]
    rw [hres, jsTrim_of_word_chars field hf1 hf2, htrim, hstrip, hmk]
    rfl

/-- Witness for C2 at `campo` / `10`: all three amended behaviors hold at a
concrete input (the hypotheses — word-like field, plain value, no earlier
pattern matching — are discharged by computation). -/
theorem c2_witness :
    ("campo" : String) ≠ "" ∧
    ("campo".data.all (atomMatch RAtom.word)) = true ∧
    ((QueryAssistant.filterPatterns.take 14).all
      (fun p => (regexSearch p.1 ("campo" ++ " != " ++ "10").data).isNone)) = true ∧
    QueryAssistant.parseFilterInput ("campo" ++ " != " ++ "10") =
      some [("campo", QueryAssistant.FilterVal.cond "ne"
        (QueryAssistant.stripQuotes "10"))] ∧
    QueryAssistant.parseFilterInput ("campo" ++ " >= " ++ "10") =
      some [("campo", QueryAssistant.FilterVal.cond "gt" ("= " ++ "10"))] ∧
    QueryAssistant.parseFilterInput ("campo" ++ " <= " ++ "10") =
      some [("campo", QueryAssistant.FilterVal.cond "lt" ("= " ++ "10"))] := by
  refine ⟨by decide, by decide, by decide, ?_, ?_, ?_⟩
  · exact c2_amended_filter_phrases.1 "campo" "10" (by decide) (by decide) (by decide)
      (by decide) (by decide) (by decide) (by decide)
  · exact c2_amended_filter_phrases.2.1 "campo" "10" (by decide) (by decide) (by decide)
      (by decide) (by decide) (by decide) (by decide)
  · exact c2_amended_filter_phrases.2.2 "campo" "10" (by decide) (by decide) (by decide)
      (by decide) (by decide) (by decide) (by decide)
